import Mathlib

/-!
# FlvSource: the source state machine of the FLV media source

A shallow embedding of `src/FlvSource.cpp`: the life cycle (`m_state`), the
control operations queued as work items (`DoStart`, `DoStop`, `DoPause`,
`DoEndOfStream`), stream selection, the public entry points, the opening scan
with the completion of the open, the synthesis of the media types and the
demux loop that delivers the samples.

Conventions of the embedding.

* Every method of the C++ class becomes a function from the object before the
  call to an `Outcome`: either the method returns (`Outcome.ret`, with the
  object after the call and the returned value) or it dereferences a null
  interface pointer (`Outcome.fault`, with the object as it is at that point).
* `assert` is compiled out (a release build).
* Calls into the Media Foundation platform that only allocate
  (`MFCreateMediaEvent`, `MFCreateAsyncResult`, `MFPutWorkItem`, queueing an
  event on a live event queue, reading a presentation descriptor) succeed.
* The stream objects, the tag parser, the keyframe index and `CheckShutdown`
  are declared in files that are not part of `src/`; what is used of them is
  either a parameter or a definition marked `Modelled from the spec:`. The
  result of an asynchronous read is an argument of the callback that completes
  it.
-/

namespace Flv

/-! ## Status codes -/

/-- The status codes (`HRESULT`) named in `FlvSource.cpp`. `failure c` stands
for any other failing code. -/
inductive HRESULT where
  | S_OK
  | S_FALSE
  | E_POINTER
  | E_INVALIDARG
  | E_FAIL
  | MF_E_SHUTDOWN
  | MF_E_NOT_INITIALIZED
  | MF_E_NOTACCEPTING
  | MF_E_INVALIDREQUEST
  | MF_E_INVALID_STATE_TRANSITION
  | MF_E_UNSUPPORTED_TIME_FORMAT
  | MF_E_BYTESTREAM_NOT_SEEKABLE
  | MF_E_INVALID_FILE_FORMAT
  | MF_E_UNSUPPORTED_FORMAT
  | failure (code : Nat)
  deriving DecidableEq, Repr

/-- The Windows test `SUCCEEDED(hr)`: the two success codes. -/
def SUCCEEDED : HRESULT → Bool
  | .S_OK => true
  | .S_FALSE => true
  | _ => false

/-- The Windows test `FAILED(hr)`. -/
def FAILED (hr : HRESULT) : Bool := !SUCCEEDED hr

/-- The helper `ok(hr)`, which the source uses interchangeably with
`SUCCEEDED(hr)`. -/
def ok (hr : HRESULT) : Bool := SUCCEEDED hr

/-- The helper `fail(hr)`, which the source uses interchangeably with
`FAILED(hr)`. -/
def fail (hr : HRESULT) : Bool := FAILED hr

/-! ## Machine integers -/

/-- The modulus of the 32-bit counters `restart_counter` and `pending_eos`. -/
def DWORD_MOD : Nat := 2 ^ 32

/-- The modulus of 64-bit file positions and times. -/
def QWORD_MOD : Nat := 2 ^ 64

/-- Reduction of an integer to an unsigned 64-bit value. -/
def wrap64 (x : Int) : Nat := (x % (QWORD_MOD : Int)).toNat

/-- Length of the previous-tag-size field that precedes every tag header
(`flv::flv_previous_tag_size_field_length`). -/
def flv_previous_tag_size_field_length : Nat := 4

/-! ## Data model -/

/-- The enum `SourceState`. -/
inductive SourceState where
  | STATE_INVALID
  | STATE_OPENING
  | STATE_STOPPED
  | STATE_PAUSED
  | STATE_STARTED
  | STATE_SHUTDOWN
  deriving DecidableEq, Repr

/-- An entry of the keyframe index: a file position and a time in 100-ns
units. -/
structure keyframe where
  position : Nat
  time : Nat
  deriving DecidableEq, Repr

/-- The keyframe index: the entries in increasing order of time. -/
structure keyframes where
  frames : List keyframe
  deriving DecidableEq, Repr

/-- Modelled from the spec: `keyframes.seek` (keyframes.hpp is not part of the
sources). It returns the largest keyframe with `time ≤ nano_t`; if there is
none, the first keyframe; and when the index is empty the keyframe
`{ position = first_media_tag_offset, time = 0 }`. -/
def keyframes.seek (ks : keyframes) (first_media_tag_offset : Nat) (nano_t : Int) : keyframe :=
  match (ks.frames.filter (fun k => decide ((k.time : Int) ≤ nano_t))).getLast? with
  | some k => k
  | none =>
    match ks.frames.head? with
    | some k => k
    | none => { position := first_media_tag_offset, time := 0 }

/-! ### Tags, packets and samples -/

/-- A run of bytes (the type `packet` of the source). -/
abbrev packet := List Nat

/-- Length of a tag header (`flv::flv_tag_header_length`). -/
def flv_tag_header_length : Nat := 11

/-- The kind of a tag (`flv::tag_type`); `eof` is what the parser reports for a
read of zero bytes. -/
inductive tag_type where
  | audio
  | video
  | script_data
  | eof
  | other (code : Nat)
  deriving DecidableEq, Repr

/-- A tag header as the parser returns it: the timestamp is in milliseconds,
`data_offset` is the file offset of the payload. -/
structure tag_header where
  type : tag_type
  timestamp : Int
  data_size : Nat
  data_offset : Nat
  deriving DecidableEq, Repr

/-- The audio codec identifiers of the container (`flv::audio_codec`). -/
def audio_codec.mp3 : Nat := 2

/-- The audio codec identifier of AAC. -/
def audio_codec.aac : Nat := 10

/-- The audio codec identifier of MP3 at 8 kHz. -/
def audio_codec.mp38k : Nat := 14

/-- The video codec identifier of AVC (`flv::video_codec::avc`). -/
def video_codec.avc : Nat := 7

/-- The frame type of a video tag (`flv::frame_type`). -/
inductive frame_type where
  | key_frame
  | inter_frame
  | disposable_inter_frame
  | generated_key_frame
  | info_command
  | other (code : Nat)
  deriving DecidableEq, Repr

/-- The packet type of an AVC video tag (`flv::avc_packet_type`). -/
inductive avc_packet_type where
  | avc_sequence_header
  | avc_nalu
  | avc_end_of_sequence
  | other (code : Nat)
  deriving DecidableEq, Repr

/-- The packet type of an AAC audio tag. -/
inductive aac_packet_type where
  | aac_sequence_header
  | aac_raw
  | other (code : Nat)
  deriving DecidableEq, Repr

/-- The first payload byte of an audio tag, decoded. -/
structure audio_header where
  codec_id : Nat
  deriving DecidableEq, Repr

/-- The first payload byte of a video tag, decoded. -/
structure video_header where
  frame_type : frame_type
  codec_id : Nat
  deriving DecidableEq, Repr

/-- The AVC extra header: packet type and composition time in milliseconds. -/
structure avc_header where
  avc_packet_type : avc_packet_type
  composite_time : Int
  deriving DecidableEq, Repr

/-- The state carried along the reads of one audio tag: the tag header, the
audio header, the AAC packet type, the time in 100-ns units and the payload. -/
structure audio_packet_header where
  timestamp : Int
  data_size : Nat
  data_offset : Nat
  codec_id : Nat
  aac_packet_type : aac_packet_type
  nano_timestamp : Int
  payload : packet
  deriving DecidableEq, Repr

/-- Modelled from the spec: the constructor `audio_packet_header(tag, header)`
(declared outside the sources). The derived time is the tag timestamp in
100-ns units. -/
def audio_packet_header.of (th : tag_header) (ah : audio_header) : audio_packet_header :=
  { timestamp := th.timestamp, data_size := th.data_size, data_offset := th.data_offset,
    codec_id := ah.codec_id, aac_packet_type := .aac_raw,
    nano_timestamp := th.timestamp * 10000, payload := [] }

/-- The state carried along the reads of one video tag: the tag header, the
video header, the AVC packet type and composition time (milliseconds), the time
in 100-ns units and the payload. -/
structure video_packet_header where
  timestamp : Int
  data_size : Nat
  data_offset : Nat
  codec_id : Nat
  frame_type : frame_type
  avc_packet_type : avc_packet_type
  composition_time : Int
  nano_timestamp : Int
  payload : packet
  deriving DecidableEq, Repr

/-- Modelled from the spec: the constructor `video_packet_header(tag, header)`
(declared outside the sources). The derived time is the tag timestamp in
100-ns units; the composition time is 0 until an AVC header is read. -/
def video_packet_header.of (th : tag_header) (vh : video_header) : video_packet_header :=
  { timestamp := th.timestamp, data_size := th.data_size, data_offset := th.data_offset,
    codec_id := vh.codec_id, frame_type := vh.frame_type, avc_packet_type := .avc_nalu,
    composition_time := 0, nano_timestamp := th.timestamp * 10000, payload := [] }

/-- The AVC decoder configuration kept in the header: profile, level, the size
of the NAL length field, and the sequence header blob (SPS then PPS, each behind
a start code). -/
structure avcc_record where
  profile : Nat := 0
  level : Nat := 0
  nal : Nat := 0
  sequence_header_blob : packet := []
  deriving DecidableEq, Repr

/-- A sample: its buffers in order, its time (100-ns units) and the clean-point
attribute, when set. -/
structure Sample where
  buffers : List packet
  time : Option Int
  clean_point : Option Nat
  deriving DecidableEq, Repr

/-- The subtypes of the media types the source builds. -/
inductive MediaSubtype where
  | MEDIASUBTYPE_H264
  | MEDIASUBTYPE_RAW_AAC1
  | MFAudioFormat_MP3
  deriving DecidableEq, Repr

/-- A media type as `CreateVideoMediaType` and `CreateAudioMediaType` fill it:
an attribute that is not set is `none`. -/
structure MediaType where
  is_video : Bool
  subtype : Option MediaSubtype := none
  frame_size : Option (Nat × Nat) := none
  frame_rate : Option (Nat × Nat) := none
  frame_rate_range_max : Option (Nat × Nat) := none
  frame_rate_range_min : Option (Nat × Nat) := none
  pixel_aspect_ratio : Option (Nat × Nat) := none
  avg_bitrate : Option Nat := none
  mpeg2_flags : Option Nat := none
  mpeg2_profile : Option Nat := none
  mpeg2_level : Option Nat := none
  mpeg_sequence_header : Option packet := none
  samples_per_second : Option Nat := none
  num_channels : Option Nat := none
  block_alignment : Option Nat := none
  bits_per_sample : Option Nat := none
  user_data : Option packet := none
  deriving DecidableEq, Repr

/-- The flags `header.status` of the file header. -/
structure header_status where
  file_header_ready : Bool := false
  has_script_data : Bool := false
  meta_ready : Bool := false
  has_audio : Bool := false
  has_video : Bool := false
  scan_once : Bool := false
  deriving DecidableEq, Repr

/-- The members of `flv_file_header` (with those of `flv_meta`, which it
extends) that the source reads or writes. -/
structure flv_file_header where
  first_media_tag_offset : Nat
  keyframes : keyframes
  status : header_status := {}
  audiocodecid : Nat := 0
  videocodecid : Nat := 0
  audiodatarate : Nat := 0
  audiosamplesize : Nat := 0
  duration : Nat := 0
  filesize : Nat := 0
  height : Nat := 0
  width : Nat := 0
  videodatarate : Nat := 0
  audiosamplerate : Nat := 0
  framerate : Nat := 0
  stereo : Nat := 1
  has_video : Nat := 0
  has_audio : Nat := 0
  avcc : avcc_record := {}
  audio : Option audio_packet_header := none
  video : Option video_packet_header := none
  deriving DecidableEq, Repr

/-- The bit-field `status` of the source. -/
structure SourceStatus where
  on_meta_data_ready : Bool
  first_audio_tag_ready : Bool
  first_video_tag_ready : Bool
  pending_seek : Bool
  pending_request : Bool
  processing_op : Bool
  code_private_data_sent : Bool
  deriving DecidableEq, Repr

/-- The value of `status` after `ZeroMemory`. -/
def SourceStatus.zero : SourceStatus :=
  { on_meta_data_ready := false, first_audio_tag_ready := false,
    first_video_tag_ready := false, pending_seek := false,
    pending_request := false, processing_op := false,
    code_private_data_sent := false }

/-- A call made by the source on one of its stream objects. -/
inductive StreamCall where
  | Start (time : Nat) (isseek : Bool)
  | Stop
  | Pause
  | Shutdown
  | Active (selected : Bool)
  | DeliverPayload (sample : Sample)
  | EndOfStream
  deriving DecidableEq, Repr

/-- Modelled from the spec: the stream object (flvstream.h is not part of the
sources). Of its state the control operations read only the active flag;
`calls` records, in order, the calls the source has made on it. -/
structure FlvStream where
  active : Bool
  calls : List StreamCall
  stream_id : Nat := 0
  media_type : Option MediaType := none
  deriving DecidableEq, Repr

/-- Record a call made on the stream. -/
def FlvStream.call (st : FlvStream) (c : StreamCall) : FlvStream :=
  { st with calls := st.calls ++ [c] }

/-- Modelled from the spec: `activate(selected)` sets the active flag; no
failure is specified for it. -/
def FlvStream.Active (st : FlvStream) (selected : Bool) : FlvStream × HRESULT :=
  ({ (st.call (.Active selected)) with active := selected }, .S_OK)

/-- Modelled from the spec: `IsActived` answers `S_OK` exactly for an active
stream. -/
def FlvStream.IsActived (st : FlvStream) : HRESULT :=
  if st.active then .S_OK else .S_FALSE

/-- The status codes the stream objects return to `Start`, `Stop`,
`DeliverPayload` and `NeedsData`, by stream identifier (0 is the video stream,
1 the audio stream). The stream implementation is not part of the sources, so
they are a parameter. -/
structure StreamReplies where
  start : Nat → HRESULT
  stop : Nat → HRESULT
  deliver : Nat → HRESULT := fun _ => .S_OK
  needs_data : Nat → HRESULT := fun _ => .S_FALSE

/-- The event types the source queues. -/
inductive MediaEventType where
  | MESourceStarted
  | MESourceSeeked
  | MESourcePaused
  | MESourceStopped
  | MENewStream
  | MEUpdatedStream
  | MEEndOfPresentation
  | MEError
  | other (code : Nat)
  deriving DecidableEq, Repr

/-- The value carried by an event. -/
inductive EventValue where
  | empty
  | time (t : Nat)
  | stream (id : Nat)
  | other (code : Nat)
  deriving DecidableEq, Repr

/-- A media event: type, status, value and the attribute
`MF_EVENT_SOURCE_ACTUAL_START` when set. -/
structure MediaEvent where
  met : MediaEventType
  status : HRESULT
  value : EventValue
  actual_start : Option Nat
  deriving DecidableEq, Repr

/-- A stream descriptor of a presentation descriptor with its selection
bit. -/
structure StreamDescriptor where
  stream_id : Nat
  selected : Bool
  media_type : Option MediaType := none
  deriving DecidableEq, Repr

/-- A presentation descriptor: its stream descriptors, by index, and the
attributes the source sets on it. -/
structure PresentationDescriptor where
  descriptors : List StreamDescriptor
  duration : Option Nat := none
  audio_encoding_bitrate : Option Nat := none
  video_encoding_bitrate : Option Nat := none
  total_file_size : Option Nat := none
  deriving DecidableEq, Repr

/-- The start position handed to `DoStart`: `Start` has rejected every
variant type other than `VT_EMPTY` and `VT_I8` before it queues the
operation. -/
inductive StartPos where
  | empty
  | time (t : Int)
  deriving DecidableEq, Repr

/-- The operations the source puts on the work queue. -/
inductive WorkItem where
  | start (pd : PresentationDescriptor) (startpos : StartPos)
  | stop
  | pause
  | request_data
  | end_of_stream
  deriving DecidableEq, Repr

/-- The byte stream given to `BeginOpen`, with its capabilities. -/
structure ByteStream where
  seekable : Bool
  readable : Bool
  position : Nat
  deriving DecidableEq, Repr

/-- The async result created by `BeginOpen` for the caller of the open. -/
structure AsyncResult where
  callback : Nat
  status : HRESULT
  deriving DecidableEq, Repr

/-- An asynchronous read begun at the tag parser, with the state it carries to
its completion. -/
inductive AsyncRead where
  | flv_header
  | tag_header (demux : Bool)
  | on_meta_data (meta_size : Nat)
  | video_header (h : tag_header)
  | audio_header (h : tag_header)
  | aac_packet_type (ash : audio_packet_header)
  | avc_header (vsh : video_packet_header)
  | audio_data (ash : audio_packet_header)
  | video_data (vsh : video_packet_header)
  deriving DecidableEq, Repr

/-- The members of the class `FlvSource`. A smart pointer is an `Option`;
`none` is the null pointer. `work_items` lists the operations this source has
put on the platform work queue, `reads` the asynchronous reads it has begun at
the tag parser, and `open_completions` the invocations of the callback of the
open, each with the status it was given. -/
structure FlvSource where
  m_state : SourceState
  status : SourceStatus
  header : flv_file_header
  current_keyframe : keyframe
  pending_seek_file_position : Nat
  pending_eos : Nat
  restart_counter : Nat
  event_queue : Option (List MediaEvent)
  presentation_descriptor : Option PresentationDescriptor
  begin_open_caller_result : Option AsyncResult
  byte_stream : Option ByteStream
  audio_stream : Option FlvStream
  video_stream : Option FlvStream
  work_items : List WorkItem
  reads : List AsyncRead := []
  open_completions : List AsyncResult := []
  deriving DecidableEq, Repr

/-- The result of running a method on an object of type `σ`. -/
inductive Outcome (σ α : Type) where
  | ret (s : σ) (v : α)
  | fault (s : σ)
  deriving DecidableEq, Repr

/-- The object after the method returned, or as it was at the fault. -/
def Outcome.state {σ α : Type} : Outcome σ α → σ
  | .ret s _ => s
  | .fault s => s

/-- Sequencing: what follows a call runs on the object and value the call
returned; a fault ends the method. -/
def Outcome.bind {σ α β : Type} (o : Outcome σ α) (f : σ → α → Outcome σ β) : Outcome σ β :=
  match o with
  | .ret s v => f s v
  | .fault s => .fault s

/-- The returned value, when the method returned. -/
def Outcome.value {σ α : Type} : Outcome σ α → Option α
  | .ret _ v => some v
  | .fault _ => none

/-- The status codes of the platform calls that build the presentation
descriptor in `InitPresentationDescriptor`: the creation and the four
attributes. -/
structure PDReplies where
  create : HRESULT := .S_OK
  set_duration : HRESULT := .S_OK
  set_audio_bitrate : HRESULT := .S_OK
  set_video_bitrate : HRESULT := .S_OK
  set_file_size : HRESULT := .S_OK
  deriving DecidableEq, Repr

/-- What the surroundings answer during one callback: the status with which
the tag parser (not part of the sources) begins the next asynchronous read, and
the statuses of the calls that build the presentation descriptor. -/
structure Platform where
  begin_read : HRESULT := .S_OK
  pd : PDReplies := {}
  deriving DecidableEq, Repr

namespace FlvSource

/-! ## Helpers of the source -/

/-- Modelled from the spec: `CheckShutdown` (declared in FlvSource.h, which is
not part of the sources) fails with *shutdown* exactly in state shutdown. -/
def CheckShutdown (s : FlvSource) : HRESULT :=
  if s.m_state = .STATE_SHUTDOWN then .MF_E_SHUTDOWN else .S_OK

/-- The method `IsInitialized`. -/
def IsInitialized (s : FlvSource) : HRESULT :=
  if s.m_state = .STATE_OPENING ∨ s.m_state = .STATE_INVALID then .MF_E_NOT_INITIALIZED
  else .S_OK

/-- The method `enter_op`. -/
def enter_op (s : FlvSource) : FlvSource :=
  { s with status := { s.status with processing_op := true } }

/-- The method `leave_op`. -/
def leave_op (s : FlvSource) : FlvSource :=
  { s with status := { s.status with processing_op := false } }

/-- The method `ValidateOperation`. -/
def ValidateOperation (s : FlvSource) : HRESULT :=
  if s.status.processing_op then .MF_E_NOTACCEPTING else .S_OK

/-- A call `event_queue->QueueEvent...(e)` through the member pointer: a fault
when the pointer is null, otherwise the event is appended. -/
def queue_event (s : FlvSource) (e : MediaEvent) : Outcome FlvSource HRESULT :=
  match s.event_queue with
  | none => .fault s
  | some q => .ret { s with event_queue := some (q ++ [e]) } .S_OK

/-- The public method `QueueEvent`. -/
def QueueEvent (s : FlvSource) (e : MediaEvent) : Outcome FlvSource HRESULT :=
  let hr := CheckShutdown s
  if SUCCEEDED hr then queue_event s e else .ret s hr

/-- The call `MFPutWorkItem` made by `AsyncDo`. -/
def AsyncDo (s : FlvSource) (w : WorkItem) : FlvSource × HRESULT :=
  ({ s with work_items := s.work_items ++ [w] }, .S_OK)

/-! ## Shutdown, stop and pause -/

/-- The method `Shutdown` (lines 200-232). -/
def Shutdown (s : FlvSource) : Outcome FlvSource HRESULT :=
  let hr := CheckShutdown s
  if fail hr then .ret s hr
  else
    let s := { s with audio_stream := s.audio_stream.map (fun (a : FlvStream) => a.call .Shutdown) }
    let s := { s with video_stream := s.video_stream.map (fun (v : FlvStream) => v.call .Shutdown) }
    .ret { s with event_queue := none, presentation_descriptor := none,
                  begin_open_caller_result := none, byte_stream := none,
                  m_state := .STATE_SHUTDOWN } hr

/-- The first half of `DoStop` (lines 874-883): everything before the event is
queued. It yields the object and the status `hr` at that point. -/
def DoStop.before_event (r : StreamReplies) (s : FlvSource) : FlvSource × HRESULT :=
  let s := enter_op s
  let hr : HRESULT := .S_OK
  let (s, hr) :=
    match s.audio_stream with
    | some a => ({ s with audio_stream := some (a.call .Stop) }, r.stop 1)
    | none => (s, hr)
  let (s, hr) :=
    match s.video_stream with
    | some v => ({ s with video_stream := some (v.call .Stop) }, r.stop 0)
    | none => (s, hr)
  let s := { s with restart_counter := (s.restart_counter + 1) % DWORD_MOD }
  ({ s with m_state := .STATE_STOPPED }, hr)

/-- The method `DoStop` (lines 872-891). -/
def DoStop (r : StreamReplies) (s : FlvSource) : Outcome FlvSource HRESULT :=
  let (s, hr) := DoStop.before_event r s
  (queue_event s { met := .MESourceStopped, status := hr, value := .empty,
                   actual_start := none }).bind
    fun s _ => .ret (leave_op s) hr

/-- The method `DoPause` (lines 907-933). -/
def DoPause (s : FlvSource) : Outcome FlvSource HRESULT :=
  let s0 := enter_op s
  let hr : HRESULT :=
    if s0.m_state ≠ .STATE_STARTED then .MF_E_INVALID_STATE_TRANSITION else .S_OK
  let s1 :=
    if SUCCEEDED hr then
      { s0 with audio_stream := s0.audio_stream.map (fun (a : FlvStream) => a.call .Pause),
                video_stream := s0.video_stream.map (fun (v : FlvStream) => v.call .Pause) }
    else s0
  let s2 := { s1 with m_state := .STATE_PAUSED }
  (queue_event s2 { met := .MESourcePaused, status := hr, value := .empty,
                    actual_start := none }).bind
    fun s _ => .ret (leave_op s) hr

/-! ## Stream selection and start -/

/-- The stream member a stream identifier designates in `SelectStreams`:
1 is `audio_stream`, 0 is `video_stream`. -/
def stream_of (s : FlvSource) (stream_id : Nat) : Option FlvStream :=
  if stream_id = 1 then s.audio_stream else s.video_stream

/-- Store a stream object back into the member it came from. -/
def set_stream (s : FlvSource) (stream_id : Nat) (st : FlvStream) : FlvSource :=
  if stream_id = 1 then { s with audio_stream := some st }
  else { s with video_stream := some st }

/-- The body of the loop of `SelectStreams` (lines 815-854) for the stream
descriptor `d`. It returns the status `hr` at the end of the body and whether
the method returns from inside the body (the `return hr` of line 832). -/
def SelectStreams.body (d : StreamDescriptor) (s : FlvSource) :
    Outcome FlvSource (HRESULT × Bool) :=
  if d.stream_id = 1 ∨ d.stream_id = 0 then
    match stream_of s d.stream_id with
    | none => .fault s
    | some st =>
      let was_selected := decide (st.IsActived = .S_OK)
      let hr := (st.Active d.selected).2
      let s := set_stream s d.stream_id (st.Active d.selected).1
      if ok hr && d.selected then
        let s := { s with pending_eos := (s.pending_eos + 1) % DWORD_MOD }
        let met : MediaEventType := if was_selected then .MEUpdatedStream else .MENewStream
        (queue_event s { met := met, status := hr, value := .stream d.stream_id,
                         actual_start := none }).bind
          fun s hr => .ret s (hr, false)
      else if ok hr && was_selected then
        .ret (set_stream s d.stream_id ((st.Active d.selected).1.call .Shutdown)) (hr, false)
      else .ret s (hr, false)
  else .ret s (.E_INVALIDARG, true)

/-- The loop of `SelectStreams` (lines 813-855) over the stream descriptors that
remain; `hr` is the status when the loop test is reached. -/
def SelectStreams.loop : List StreamDescriptor → FlvSource → HRESULT → Outcome FlvSource HRESULT
  | [], s, hr => .ret s hr
  | d :: ds, s, _ =>
    (SelectStreams.body d s).bind fun s res =>
      if res.2 then .ret s res.1 else SelectStreams.loop ds s res.1

/-- The method `SelectStreams` (lines 804-857). The arguments `nanosec` and
`isseek` are not used by the body. -/
def SelectStreams (s : FlvSource) (pPD : PresentationDescriptor) (_nanosec : Nat)
    (_isseek : Bool) : Outcome FlvSource HRESULT :=
  SelectStreams.loop pPD.descriptors { s with pending_eos := 0 } .S_OK

/-- The first part of `DoStart` (lines 730-752): the keyframe `k` to start
from, the flag `isseek`, and the object with the pending seek recorded. -/
def DoStart.position (s : FlvSource) (startpos : StartPos) : FlvSource × keyframe × Bool :=
  let s := enter_op s
  match startpos with
  | .time t =>
    let k := s.header.keyframes.seek s.header.first_media_tag_offset t
    let s := { s with
      pending_seek_file_position :=
        wrap64 ((k.position : Int) - (flv_previous_tag_size_field_length : Int)),
      status := { s.status with pending_seek := true } }
    (s, k, decide (s.m_state ≠ .STATE_STOPPED))
  | .empty =>
    if s.m_state = .STATE_STOPPED then
      let s := { s with
        pending_seek_file_position :=
          wrap64 ((s.header.first_media_tag_offset : Int)
                    - (flv_previous_tag_size_field_length : Int)),
        status := { s.status with pending_seek := true } }
      (s, { position := s.header.first_media_tag_offset, time := 0 }, false)
    else (s, s.current_keyframe, false)

/-- The second part of `DoStart` (lines 758-778): the source-level event. -/
def DoStart.notify (s : FlvSource) (k : keyframe) (isseek : Bool) (hr : HRESULT) :
    Outcome FlvSource HRESULT :=
  if ok hr && isseek then
    QueueEvent s { met := .MESourceSeeked, status := hr, value := .time k.time,
                   actual_start := none }
  else if SUCCEEDED hr then
    let s := { s with m_state := .STATE_STARTED }
    queue_event s { met := .MESourceStarted, status := hr, value := .time k.time,
                    actual_start := some k.time }
  else .ret s hr

/-- The third part of `DoStart` (lines 779-780): the streams are started. -/
def DoStart.streams (r : StreamReplies) (s : FlvSource) (k : keyframe) (isseek : Bool)
    (hr : HRESULT) : FlvSource × HRESULT :=
  let (s, hr) :=
    match ok hr, s.audio_stream with
    | true, some a => ({ s with audio_stream := some (a.call (.Start k.time isseek)) }, r.start 1)
    | _, _ => (s, hr)
  match ok hr, s.video_stream with
  | true, some v => ({ s with video_stream := some (v.call (.Start k.time isseek)) }, r.start 0)
  | _, _ => (s, hr)

/-- The last part of `DoStart` (lines 782-796): the failure event and the
return. -/
def DoStart.finish (s : FlvSource) (hr : HRESULT) : Outcome FlvSource HRESULT :=
  if FAILED hr then
    (queue_event s { met := .MESourceStarted, status := hr, value := .empty,
                     actual_start := none }).bind
      fun s _ => .ret (leave_op s) hr
  else .ret (leave_op s) hr

/-- The method `DoStart` (lines 726-797). The status of `ValidateOperation` is
only asserted and then overwritten. -/
def DoStart (r : StreamReplies) (s : FlvSource) (pd : PresentationDescriptor)
    (startpos : StartPos) : Outcome FlvSource HRESULT :=
  let p := DoStart.position s startpos
  let k := p.2.1
  let isseek := p.2.2
  (SelectStreams p.1 pd k.time isseek).bind fun s hr =>
    (DoStart.notify s k isseek hr).bind fun s hr =>
      DoStart.finish (DoStart.streams r s k isseek hr).1 (DoStart.streams r s k isseek hr).2

/-! ## End of stream -/

/-- The method `DoEndOfStream` (lines 1275-1296). -/
def DoEndOfStream (s : FlvSource) : Outcome FlvSource HRESULT :=
  let s := enter_op s
  let s := { s with pending_eos := (s.pending_eos + DWORD_MOD - 1) % DWORD_MOD }
  if s.pending_eos = 0 then
    (queue_event s { met := .MEEndOfPresentation, status := .S_OK, value := .empty,
                     actual_start := none }).bind
      fun s hr => if SUCCEEDED hr then .ret (leave_op s) hr else .ret s hr
  else .ret (leave_op s) .S_OK

/-- The method `DoEndOfStream` run `n` times in a row; the run stops at a
fault. -/
def DoEndOfStream.times : Nat → FlvSource → Outcome FlvSource HRESULT
  | 0, s => .ret s .S_OK
  | n + 1, s => (DoEndOfStream s).bind fun s _ => DoEndOfStream.times n s

/-! ## Media types and streams -/

/-- The function `CreateVideoMediaType` (lines 1418-1459): the status and the
type returned through `ppType`. -/
def CreateVideoMediaType (header : flv_file_header) : HRESULT × Option MediaType :=
  if header.videocodecid ≠ video_codec.avc then (.MF_E_UNSUPPORTED_FORMAT, none)
  else
    (.S_OK, some
      { is_video := true
        subtype := some .MEDIASUBTYPE_H264
        frame_size := some (header.width, header.height)
        frame_rate := some (header.framerate, 1)
        frame_rate_range_max := some (header.framerate, 1)
        frame_rate_range_min := some (header.framerate / 2, 1)
        pixel_aspect_ratio := some (1, 1)
        avg_bitrate := some header.videodatarate
        mpeg2_flags := some header.avcc.nal
        mpeg2_profile := some header.avcc.profile
        mpeg2_level := some header.avcc.level
        mpeg_sequence_header := some header.avcc.sequence_header_blob })

/-- The function `CreateAudioMediaType` (lines 1461-1490): the status and the
type returned through `ppType`. The two tests that set the subtype are those of
lines 1472-1474, with `hr` a success at that point. -/
def CreateAudioMediaType (header : flv_file_header) : HRESULT × Option MediaType :=
  let cid := header.audiocodecid
  if cid ≠ audio_codec.aac ∧ cid ≠ audio_codec.mp3 ∧ cid ≠ audio_codec.mp38k then
    (.MF_E_UNSUPPORTED_FORMAT, none)
  else
    let hr : HRESULT := .S_OK
    let subtype : Option MediaSubtype :=
      if ok hr ∧ header.audiocodecid = audio_codec.aac then some .MEDIASUBTYPE_RAW_AAC1
      else none
    let subtype : Option MediaSubtype :=
      if (ok hr ∧ header.audiocodecid = audio_codec.mp3)
          ∨ header.audiocodecid = audio_codec.mp38k then some .MFAudioFormat_MP3
      else subtype
    (hr, some
      { is_video := false
        subtype := subtype
        samples_per_second :=
          if header.audiosamplerate ≠ 0 then some header.audiosamplerate else none
        num_channels := some (header.stereo + 1)
        block_alignment := some 1
        bits_per_sample := some header.audiosamplesize
        avg_bitrate := some header.audiodatarate
        user_data := some ((header.audio.map (fun a => a.payload)).getD []) })

/-- The method `CreateStream` (lines 1310-1336): the new stream object for
stream identifier `index`, not active yet. -/
def CreateStream (index : Nat) (media_type : MediaType) : FlvStream :=
  { active := false, calls := [], stream_id := index, media_type := some media_type }

/-- The method `CreateAudioStream` (lines 1342-1349). -/
def CreateAudioStream (s : FlvSource) : FlvSource × HRESULT :=
  match CreateAudioMediaType s.header with
  | (hr, some media_type) =>
    if ok hr then ({ s with audio_stream := some (CreateStream 1 media_type) }, .S_OK)
    else (s, hr)
  | (hr, none) => (s, hr)

/-- The method `CreateVideoStream` (lines 1351-1357). -/
def CreateVideoStream (s : FlvSource) : FlvSource × HRESULT :=
  match CreateVideoMediaType s.header with
  | (hr, some media_type) =>
    if ok hr then ({ s with video_stream := some (CreateStream 0 media_type) }, .S_OK)
    else (s, hr)
  | (hr, none) => (s, hr)

/-- The stream descriptor a stream object hands out (`GetStreamDescriptor`). -/
def stream_descriptor (st : FlvStream) : StreamDescriptor :=
  { stream_id := st.stream_id, selected := false, media_type := st.media_type }

/-! ## Completion of the open -/

/-- The method `CompleteOpen` (lines 527-536): the callback of the open is
invoked with `hrStatus`. The async result is used through its pointer. -/
def CompleteOpen (s : FlvSource) (hrStatus : HRESULT) : Outcome FlvSource HRESULT :=
  match s.begin_open_caller_result with
  | none => .fault s
  | some result =>
    .ret { s with open_completions := s.open_completions ++ [{ result with status := hrStatus }],
                  begin_open_caller_result := none } .S_OK

/-- The attributes of lines 604-611, set one after the other as long as the
status is a success. -/
def InitPresentationDescriptor.attributes (fw : PDReplies) (header : flv_file_header)
    (pd : PresentationDescriptor) (hr : HRESULT) : PresentationDescriptor × HRESULT :=
  let (pd, hr) :=
    if ok hr then
      (if SUCCEEDED fw.set_duration
        then { pd with duration := some (header.duration * 10000000 % QWORD_MOD) } else pd,
       fw.set_duration)
    else (pd, hr)
  let (pd, hr) :=
    if ok hr then
      (if SUCCEEDED fw.set_audio_bitrate
        then { pd with audio_encoding_bitrate := some header.audiodatarate } else pd,
       fw.set_audio_bitrate)
    else (pd, hr)
  let (pd, hr) :=
    if ok hr then
      (if SUCCEEDED fw.set_video_bitrate
        then { pd with video_encoding_bitrate := some header.videodatarate } else pd,
       fw.set_video_bitrate)
    else (pd, hr)
  if ok hr then
    (if SUCCEEDED fw.set_file_size
      then { pd with total_file_size := some header.filesize } else pd,
     fw.set_file_size)
  else (pd, hr)

/-- The method `InitPresentationDescriptor` (lines 577-641). -/
def InitPresentationDescriptor (fw : PDReplies) (s : FlvSource) : Outcome FlvSource HRESULT :=
  let ppSD : List StreamDescriptor :=
    (s.video_stream.map stream_descriptor).toList ++ (s.audio_stream.map stream_descriptor).toList
  if FAILED fw.create then .ret { s with presentation_descriptor := none } fw.create
  else
    let res := InitPresentationDescriptor.attributes fw s.header { descriptors := ppSD } fw.create
    let s := { s with presentation_descriptor := some res.1 }
    if FAILED res.2 then .ret s res.2
    else
      let pd : PresentationDescriptor :=
        { res.1 with descriptors := res.1.descriptors.map (fun d => { d with selected := true }) }
      let s := { s with presentation_descriptor := some pd, m_state := .STATE_STOPPED }
      CompleteOpen s .S_OK

/-- The method `FinishInitialize` (lines 1298-1308). The statuses of
`CreateAudioStream` and `CreateVideoStream` are not looked at. -/
def FinishInitialize (p : Platform) (s : FlvSource) : Outcome FlvSource HRESULT :=
  let s := (CreateAudioStream s).1
  let s := (CreateVideoStream s).1
  InitPresentationDescriptor p.pd s

/-- The method `StreamingError` (lines 1391-1407). -/
def StreamingError (s : FlvSource) (hr : HRESULT) : Outcome FlvSource Unit :=
  if s.m_state = .STATE_OPENING then
    (CompleteOpen s hr).bind fun s _ => .ret s ()
  else if s.m_state ≠ .STATE_SHUTDOWN then
    (QueueEvent s { met := .MEError, status := hr, value := .empty, actual_start := none }).bind
      fun s _ => .ret s ()
  else .ret s ()

/-! ## Reads -/

/-- A call `parser.begin_...` that returns `hr`: when it succeeds, the read is
under way. -/
def begin_read (s : FlvSource) (rd : AsyncRead) (hr : HRESULT) : FlvSource :=
  if SUCCEEDED hr then { s with reads := s.reads ++ [rd] } else s

/-- The shape shared by `ReadSampleHeader`, `ReadVideoHeader`,
`ReadAudioHeader`, `ReadAacPacketType`, `ReadAvcPacketType`, `ReadAudioData` and
`ReadVideoData`: begin the read, and shut the source down when that fails. -/
def begin_or_shutdown (p : Platform) (s : FlvSource) (rd : AsyncRead) :
    Outcome FlvSource HRESULT :=
  let hr := p.begin_read
  let s := begin_read s rd hr
  if fail hr then (Shutdown s).bind fun s _ => .ret s hr
  else .ret s hr

/-- The method `ReadFlvTagHeader` (lines 399-402). -/
def ReadFlvTagHeader (p : Platform) (s : FlvSource) : FlvSource × HRESULT :=
  (begin_read s (.tag_header false) p.begin_read, p.begin_read)

/-- The method `ReadMetaData` (lines 447-449). -/
def ReadMetaData (p : Platform) (s : FlvSource) (meta_size : Nat) : FlvSource × HRESULT :=
  (begin_read s (.on_meta_data meta_size) p.begin_read, p.begin_read)

/-- The method `ReadSampleHeader` (lines 970-976). -/
def ReadSampleHeader (p : Platform) (s : FlvSource) : Outcome FlvSource HRESULT :=
  begin_or_shutdown p s (.tag_header true)

/-- The method `ReadVideoHeader` (lines 998-1003). -/
def ReadVideoHeader (p : Platform) (s : FlvSource) (h : tag_header) :
    Outcome FlvSource HRESULT :=
  begin_or_shutdown p s (.video_header h)

/-- The method `ReadAudioHeader` (lines 1023-1028). -/
def ReadAudioHeader (p : Platform) (s : FlvSource) (h : tag_header) :
    Outcome FlvSource HRESULT :=
  begin_or_shutdown p s (.audio_header h)

/-- The method `ReadAacPacketType` (lines 1048-1053). -/
def ReadAacPacketType (p : Platform) (s : FlvSource) (ash : audio_packet_header) :
    Outcome FlvSource HRESULT :=
  begin_or_shutdown p s (.aac_packet_type ash)

/-- The method `ReadAvcPacketType` (lines 1067-1072). -/
def ReadAvcPacketType (p : Platform) (s : FlvSource) (vsh : video_packet_header) :
    Outcome FlvSource HRESULT :=
  begin_or_shutdown p s (.avc_header vsh)

/-- The method `ReadAudioData` (lines 1088-1093). -/
def ReadAudioData (p : Platform) (s : FlvSource) (ash : audio_packet_header) :
    Outcome FlvSource HRESULT :=
  begin_or_shutdown p s (.audio_data ash)

/-- The method `ReadVideoData` (lines 1139-1144). -/
def ReadVideoData (p : Platform) (s : FlvSource) (vsh : video_packet_header) :
    Outcome FlvSource HRESULT :=
  begin_or_shutdown p s (.video_data vsh)

/-- The method `SeekToNextTag` (lines 441-445): the byte stream, used through
its pointer, moves forward by the payload size. -/
def SeekToNextTag (s : FlvSource) (tagh : tag_header) : Outcome FlvSource HRESULT :=
  match s.byte_stream with
  | none => .fault s
  | some b => .ret { s with byte_stream := some { b with position := b.position + tagh.data_size } }
      .S_OK

/-! ## AVC configuration and NAL units -/

/-- The value of a run of bytes read as a big-endian number. -/
def big_endian (bs : packet) : Nat :=
  bs.foldl (fun acc b => acc * 256 + b) 0

/-- Read `count` units, each a 16-bit big-endian length and that many bytes;
the units and the bytes that follow them. -/
def avcc_reader.units : Nat → packet → List packet × packet
  | 0, bs => ([], bs)
  | count + 1, bs =>
    let len := big_endian (bs.take 2)
    let rest := avcc_reader.units count (bs.drop (2 + len))
    ((bs.drop 2).take len :: rest.1, rest.2)

/-- Modelled from the spec: `flv::avcc_reader(payload).avcc()` (avcc.hpp is not
part of the sources). Bytes 1 and 3 are profile and level, the two low bits of
byte 4 plus one the size of the NAL length field, the five low bits of byte 5
the number of SPS units; the PPS units follow their count; the blob is every
SPS and then every PPS behind the start code `00 00 00 01`. -/
def avcc_reader.avcc (payload : packet) : avcc_record :=
  let sps := avcc_reader.units ((payload.getD 5 0) % 32) (payload.drop 6)
  let pps := avcc_reader.units (sps.2.headD 0) (sps.2.drop 1)
  { profile := payload.getD 1 0
    level := payload.getD 3 0
    nal := (payload.getD 4 0) % 4 + 1
    sequence_header_blob :=
      (sps.1 ++ pps.1).foldr (fun u acc => [0, 0, 0, 1] ++ u ++ acc) [] }

/-- Modelled from the spec: the NAL units `flv::nalu_reader` hands out one after
the other (the reader is not part of the sources). Each unit is a big-endian
length of `k_len` bytes and that many bytes; the loop of `DeliverAvcPacket`
ends at the first unit of length 0, which is also what the reader returns at
the end of the payload. `fuel` bounds the number of units. -/
def nalu_reader.nalus (k_len : Nat) : Nat → packet → List packet
  | 0, _ => []
  | fuel + 1, bs =>
    let nalu := (bs.drop k_len).take (big_endian (bs.take k_len))
    if nalu.length = 0 then []
    else nalu :: nalu_reader.nalus k_len fuel (bs.drop (k_len + nalu.length))

/-- The start code `NewNaluBuffer` writes: three bytes for a NAL length field
shorter than 4 bytes, else four. -/
def start_code (nallength : Nat) : packet :=
  if nallength < 4 then [0, 0, 1] else [0, 0, 0, 1]

/-- The function `NewNaluBuffer` (lines 1534-1558): the contents of the buffer
it returns. The buffer is created with `nallength + nalu.length` bytes and its
current length is set to that maximum; the writer is given the same maximum, so
of the start code and the unit only what fits is in the buffer. -/
def NewNaluBuffer (nallength : Nat) (nalu : packet) : packet :=
  (start_code nallength ++ nalu).take (nallength + nalu.length)

/-! ## The demux loop -/

/-- The method `NeedDemux` (lines 1238-1251). Both stream pointers are
converted by `to_stream_ext`, which calls through them. -/
def NeedDemux (r : StreamReplies) (s : FlvSource) : Outcome FlvSource Bool :=
  if fail (CheckShutdown s) then .ret s false
  else if s.status.pending_request then .ret s false
  else
    match s.video_stream, s.audio_stream with
    | some _, some _ =>
      if r.needs_data 0 = .S_OK then .ret s true
      else if r.needs_data 1 = .S_OK then .ret s true
      else .ret s false
    | _, _ => .fault s

/-- The repositioning of lines 963-966 in `DemuxSample`. -/
def DemuxSample.reposition (s : FlvSource) : Outcome FlvSource Unit :=
  if s.status.pending_seek then
    let s := { s with status := { s.status with pending_seek := false } }
    match s.byte_stream with
    | none => .fault s
    | some b =>
      .ret { s with byte_stream := some { b with position := s.pending_seek_file_position } } ()
  else .ret s ()

/-- The method `DemuxSample` (lines 960-969). -/
def DemuxSample (p : Platform) (r : StreamReplies) (s : FlvSource) : Outcome FlvSource Unit :=
  (NeedDemux r s).bind fun s need =>
    if !need then .ret s ()
    else
      (DemuxSample.reposition s).bind fun s _ =>
        (ReadSampleHeader p { s with status := { s.status with pending_request := true } }).bind
          fun s _ => .ret s ()

/-- The end shared by the three `Deliver...Packet` methods: the sample goes to
the stream with identifier `stream_id`, `pending_request` is cleared and the
demux loop is entered again; the status is that of the delivery. -/
def deliver_sample (p : Platform) (r : StreamReplies) (s : FlvSource) (stream_id : Nat)
    (sample : Sample) : Outcome FlvSource HRESULT :=
  match stream_of s stream_id with
  | none => .fault s
  | some st =>
    let s := set_stream s stream_id (st.call (.DeliverPayload sample))
    let s := { s with status := { s.status with pending_request := false } }
    (DemuxSample p r s).bind fun s _ => .ret s (r.deliver stream_id)

/-- The method `DeliverAudioPacket` (lines 1094-1110). -/
def DeliverAudioPacket (p : Platform) (r : StreamReplies) (s : FlvSource)
    (ash : audio_packet_header) : Outcome FlvSource HRESULT :=
  deliver_sample p r s 1
    { buffers := [ash.payload], time := some ash.nano_timestamp, clean_point := none }

/-- The buffers of the sample built by `DeliverAvcPacket` (lines 1148-1166):
the sequence header blob when `code_private_data_sent` is not set, then one
buffer for each NAL unit of a NALU packet. -/
def DeliverAvcPacket.buffers (s : FlvSource) (vsh : video_packet_header) : List packet :=
  (if !s.status.code_private_data_sent then [s.header.avcc.sequence_header_blob] else [])
  ++ (if vsh.avc_packet_type = .avc_nalu then
        (nalu_reader.nalus s.header.avcc.nal vsh.payload.length vsh.payload).map
          (NewNaluBuffer s.header.avcc.nal)
      else [])

/-- The method `DeliverAvcPacket` (lines 1145-1179). -/
def DeliverAvcPacket (p : Platform) (r : StreamReplies) (s : FlvSource)
    (vsh : video_packet_header) : Outcome FlvSource HRESULT :=
  let buffers := DeliverAvcPacket.buffers s vsh
  let s := { s with status := { s.status with code_private_data_sent := true } }
  deliver_sample p r s 0
    { buffers := buffers, time := some vsh.nano_timestamp,
      clean_point := some (if vsh.frame_type = .key_frame then 1 else 0) }

/-- The method `DeliverNAvcPacket` (lines 1180-1198). -/
def DeliverNAvcPacket (p : Platform) (r : StreamReplies) (s : FlvSource)
    (vsh : video_packet_header) : Outcome FlvSource HRESULT :=
  deliver_sample p r s 0
    { buffers := [vsh.payload],
      time := some (vsh.nano_timestamp + vsh.composition_time * 10000),
      clean_point := some (if vsh.frame_type = .key_frame then 1 else 0) }

/-- The method `DeliverVideoPacket` (lines 1201-1210). -/
def DeliverVideoPacket (p : Platform) (r : StreamReplies) (s : FlvSource)
    (vsh : video_packet_header) : Outcome FlvSource HRESULT :=
  let isk := vsh.frame_type = .key_frame ∨ vsh.frame_type = .generated_key_frame
  let s :=
    if isk then
      { s with current_keyframe :=
          { position := wrap64 ((vsh.data_offset : Int) - (flv_tag_header_length : Int)),
            time := wrap64 (vsh.nano_timestamp + vsh.composition_time * 10000) } }
    else s
  if vsh.codec_id = video_codec.avc then DeliverAvcPacket p r s vsh
  else DeliverNAvcPacket p r s vsh

/-! ## The callbacks of the reads -/

/-- The end shared by the callbacks of lines 1005-1126 and 1211-1227: a failing
status shuts the source down; the status is returned. -/
def shutdown_on_failure (s : FlvSource) (hr : HRESULT) : Outcome FlvSource HRESULT :=
  if fail hr then (Shutdown s).bind fun s _ => .ret s hr
  else .ret s hr

/-- The method `CheckFirstPacketsReady` (lines 1127-1138). -/
def CheckFirstPacketsReady (p : Platform) (s : FlvSource) : Outcome FlvSource HRESULT :=
  let ar := s.header.has_audio = 0 ∨ s.header.audiocodecid ≠ audio_codec.aac
    ∨ s.status.first_audio_tag_ready = true
  let vr := s.header.has_video = 0 ∨ s.header.videocodecid ≠ video_codec.avc
    ∨ s.status.first_video_tag_ready = true
  if ar ∧ vr then FinishInitialize p s
  else .ret (ReadFlvTagHeader p s).1 (ReadFlvTagHeader p s).2

/-- The method `OnFlvHeader` (lines 387-398); `hr` is the status of the read. -/
def OnFlvHeader (p : Platform) (s : FlvSource) (hr : HRESULT) : Outcome FlvSource HRESULT :=
  if FAILED hr then (StreamingError s hr).bind fun s _ => .ret s .S_OK
  else
    let s := { s with header := { s.header with
      status := { s.header.status with file_header_ready := true } } }
    .ret (ReadFlvTagHeader p s).1 .S_OK

/-- The store of lines 417-418 and 425-426: the offset of the first media tag,
when it is not known yet. -/
def note_first_media_tag (s : FlvSource) (tagh : tag_header) : FlvSource :=
  if s.header.first_media_tag_offset = 0 then
    { s with header :=
        { s.header with
          first_media_tag_offset :=
            wrap64 ((tagh.data_offset : Int) - (flv_tag_header_length : Int)) } }
  else s

/-- The method `OnFlvTagHeader` (lines 403-439); `hr` and `tagh` are the status
and the tag header of the read. -/
def OnFlvTagHeader (p : Platform) (s : FlvSource) (hr : HRESULT) (tagh : tag_header) :
    Outcome FlvSource HRESULT :=
  if FAILED hr then (StreamingError s hr).bind fun s _ => .ret s .S_OK
  else if tagh.type = .script_data ∧ s.status.on_meta_data_ready = false then
    let s := { s with header := { s.header with
      status := { s.header.status with has_script_data := true } } }
    .ret (ReadMetaData p s tagh.data_size).1 .S_OK
  else if tagh.type = .video then
    let s := { s with header := { s.header with
      status := { s.header.status with has_video := true } } }
    let s := note_first_media_tag s tagh
    (if s.status.first_video_tag_ready then SeekToNextTag s tagh
     else ReadVideoHeader p s tagh).bind fun s _ => .ret s .S_OK
  else if tagh.type = .audio then
    let s := { s with header := { s.header with
      status := { s.header.status with has_audio := true } } }
    let s := note_first_media_tag s tagh
    (if s.status.first_audio_tag_ready then SeekToNextTag s tagh
     else ReadAudioHeader p s tagh).bind fun s _ => .ret s .S_OK
  else if tagh.type = .eof then
    let s := { s with header := { s.header with
      status := { s.header.status with scan_once := true } } }
    (StreamingError s .MF_E_INVALID_FILE_FORMAT).bind fun s _ => .ret s .S_OK
  else (SeekToNextTag s tagh).bind fun s _ => .ret s .S_OK

/-- The method `OnMetaData` (lines 451-464); `hr` is the status of the read and
`fill` what the parser has written into the header. -/
def OnMetaData (p : Platform) (s : FlvSource) (hr : HRESULT)
    (fill : flv_file_header → flv_file_header) : Outcome FlvSource HRESULT :=
  let s := { s with header := fill s.header }
  if FAILED hr then (StreamingError s hr).bind fun s _ => .ret s .S_OK
  else
    let s := { s with status := { s.status with on_meta_data_ready := true },
                      header := { s.header with
                        status := { s.header.status with meta_ready := true } } }
    if s.header.audiocodecid ≠ audio_codec.aac ∧ s.header.videocodecid ≠ video_codec.avc then
      (FinishInitialize p s).bind fun s _ => .ret s .S_OK
    else .ret (ReadFlvTagHeader p s).1 .S_OK

/-- The method `OnVideoHeader` (lines 1005-1021); `tagh` is the state of the
read, `hr` and `vh` its status and result. -/
def OnVideoHeader (p : Platform) (s : FlvSource) (hr : HRESULT) (tagh : tag_header)
    (vh : video_header) : Outcome FlvSource HRESULT :=
  let vsh := video_packet_header.of tagh vh
  (if ok hr then
    (if vsh.codec_id = video_codec.avc then ReadAvcPacketType p s vsh
     else ReadVideoData p s vsh)
   else .ret s hr).bind fun s _ => shutdown_on_failure s hr

/-- The method `OnAudioHeader` (lines 1029-1046). -/
def OnAudioHeader (p : Platform) (s : FlvSource) (hr : HRESULT) (tagh : tag_header)
    (ah : audio_header) : Outcome FlvSource HRESULT :=
  let ash := audio_packet_header.of tagh ah
  (if ok hr then
    (if ah.codec_id = audio_codec.aac then ReadAacPacketType p s ash
     else ReadAudioData p s ash)
   else .ret s hr).bind fun s _ => shutdown_on_failure s hr

/-- The method `OnAacPacketType` (lines 1054-1065). -/
def OnAacPacketType (p : Platform) (s : FlvSource) (hr : HRESULT) (ash : audio_packet_header)
    (type : aac_packet_type) : Outcome FlvSource HRESULT :=
  let ash := { ash with aac_packet_type := type }
  (if ok hr then ReadAudioData p s ash else .ret s hr).bind
    fun s _ => shutdown_on_failure s hr

/-- The method `OnAvcPacketType` (lines 1073-1087). -/
def OnAvcPacketType (p : Platform) (s : FlvSource) (hr : HRESULT) (vsh : video_packet_header)
    (v : avc_header) : Outcome FlvSource HRESULT :=
  let vsh := { vsh with avc_packet_type := v.avc_packet_type,
                        composition_time := v.composite_time }
  (if ok hr then ReadVideoData p s vsh else .ret s hr).bind
    fun s _ => shutdown_on_failure s hr

/-- The method `OnAudioData` (lines 1111-1126); `ash` is the state of the read,
`hr` and `payload` its status and result. -/
def OnAudioData (p : Platform) (r : StreamReplies) (s : FlvSource) (hr : HRESULT)
    (ash : audio_packet_header) (payload : packet) : Outcome FlvSource HRESULT :=
  let ash := { ash with payload := payload }
  if ok hr && s.status.first_audio_tag_ready then
    (DeliverAudioPacket p r s ash).bind fun s hr => shutdown_on_failure s hr
  else if ok hr then
    let s := { s with status := { s.status with first_audio_tag_ready := true },
                      header := { s.header with audio := some ash } }
    (CheckFirstPacketsReady p s).bind fun s _ => shutdown_on_failure s hr
  else shutdown_on_failure s hr

/-- The method `OnVideoData` (lines 1211-1227). -/
def OnVideoData (p : Platform) (r : StreamReplies) (s : FlvSource) (hr : HRESULT)
    (vsh : video_packet_header) (payload : packet) : Outcome FlvSource HRESULT :=
  let vsh := { vsh with payload := payload }
  if ok hr && s.status.first_video_tag_ready then
    (DeliverVideoPacket p r s vsh).bind fun s hr => shutdown_on_failure s hr
  else if ok hr then
    let s := { s with status := { s.status with first_video_tag_ready := true },
                      header := { s.header with video := some vsh,
                                                avcc := avcc_reader.avcc vsh.payload } }
    (CheckFirstPacketsReady p s).bind fun s _ => shutdown_on_failure s hr
  else shutdown_on_failure s hr

/-- The method `EndOfFile` (lines 1229-1237). Both stream pointers are
converted by `to_stream_ext`, which calls through them, before either stream is
told. -/
def EndOfFile (s : FlvSource) : Outcome FlvSource HRESULT :=
  match s.video_stream, s.audio_stream with
  | some v, some a =>
    .ret { s with video_stream := some (v.call .EndOfStream),
                  audio_stream := some (a.call .EndOfStream) } .S_OK
  | _, _ => .fault s

/-- The method `OnSampleHeader` (lines 977-996); `hr` and `tagh` are the status
and the tag header of the read. The kind of the tag is looked at before the
status. -/
def OnSampleHeader (p : Platform) (s : FlvSource) (hr : HRESULT) (tagh : tag_header) :
    Outcome FlvSource HRESULT :=
  if tagh.type = .eof then EndOfFile s
  else if tagh.type = .audio then ReadAudioHeader p s tagh
  else if tagh.type = .video then ReadVideoHeader p s tagh
  else if fail hr then Shutdown s
  else SeekToNextTag s tagh

/-- The method `DoRequestData` (lines 952-958). -/
def DoRequestData (p : Platform) (r : StreamReplies) (s : FlvSource) :
    Outcome FlvSource HRESULT :=
  (DemuxSample p r (enter_op s)).bind fun s _ => .ret (leave_op s) .S_OK

/-! ## Public entry points -/

/-- The variant types `Start` tells apart. -/
inductive VARTYPE where
  | VT_EMPTY
  | VT_I8
  | other (code : Nat)
  deriving DecidableEq, Repr

/-- A `PROPVARIANT`: its type tag and its 64-bit value. -/
structure PROPVARIANT where
  vt : VARTYPE
  hVal : Int
  deriving DecidableEq, Repr

/-- The copy of the start position kept by the queued start operation. -/
def PROPVARIANT.startpos (v : PROPVARIANT) : StartPos :=
  if v.vt = .VT_I8 then .time v.hVal else .empty

/-- A time-format GUID; `GUID_NULL` is 0. -/
abbrev GUID := Nat

/-- The null GUID. -/
def GUID_NULL : GUID := 0

/-- The capability flags reported by `GetCharacteristics`. -/
inductive Characteristic where
  | MFMEDIASOURCE_CAN_PAUSE
  | MFMEDIASOURCE_CAN_SEEK
  | MFMEDIASOURCE_HAS_SLOW_SEEK
  | MFMEDIASOURCE_CAN_SKIPFORWARD
  | MFMEDIASOURCE_CAN_SKIPBACKWARD
  deriving DecidableEq, Repr

/-- A call of a method of the platform event queue through the member pointer.
What the queue does with its events and what it answers is the platform's
business: the parameter `fw`. -/
def with_event_queue (s : FlvSource) (fw : List MediaEvent → List MediaEvent × HRESULT) :
    Outcome FlvSource HRESULT :=
  match s.event_queue with
  | none => .fault s
  | some q => .ret { s with event_queue := some (fw q).1 } (fw q).2

/-- The method `BeginGetEvent` (lines 36-50). -/
def BeginGetEvent (s : FlvSource) (fw : List MediaEvent → List MediaEvent × HRESULT) :
    Outcome FlvSource HRESULT :=
  let hr := CheckShutdown s
  if SUCCEEDED hr then with_event_queue s fw else .ret s hr

/-- The method `EndGetEvent` (lines 52-66). -/
def EndGetEvent (s : FlvSource) (fw : List MediaEvent → List MediaEvent × HRESULT) :
    Outcome FlvSource HRESULT :=
  let hr := CheckShutdown s
  if SUCCEEDED hr then with_event_queue s fw else .ret s hr

/-- The method `GetEvent` (lines 68-92). -/
def GetEvent (s : FlvSource) (fw : List MediaEvent → List MediaEvent × HRESULT) :
    Outcome FlvSource HRESULT :=
  let hr := CheckShutdown s
  if SUCCEEDED hr then with_event_queue s fw else .ret s hr

/-- The method `CreatePresentationDescriptor` (lines 116-140); `pppd` tells
whether the out-pointer is non-null. The clone is returned with the status. -/
def CreatePresentationDescriptor (s : FlvSource) (pppd : Bool) :
    Outcome FlvSource (HRESULT × Option PresentationDescriptor) :=
  if !pppd then .ret s (.E_POINTER, none)
  else
    let hr := CheckShutdown s
    let hr := if SUCCEEDED hr then IsInitialized s else hr
    if ok hr then
      match s.presentation_descriptor with
      | some pd => .ret s (.S_OK, some pd)
      | none => .ret s (.MF_E_NOT_INITIALIZED, none)
    else .ret s (hr, none)

/-- The method `GetCharacteristics` (lines 148-171); `pdwCharacteristics` tells
whether the out-pointer is non-null. -/
def GetCharacteristics (s : FlvSource) (pdwCharacteristics : Bool) :
    Outcome FlvSource (HRESULT × Option (List Characteristic)) :=
  if !pdwCharacteristics then .ret s (.E_POINTER, none)
  else
    let hr := CheckShutdown s
    if SUCCEEDED hr then
      .ret s (hr, some [.MFMEDIASOURCE_CAN_PAUSE, .MFMEDIASOURCE_CAN_SEEK,
                        .MFMEDIASOURCE_HAS_SLOW_SEEK, .MFMEDIASOURCE_CAN_SKIPFORWARD,
                        .MFMEDIASOURCE_CAN_SKIPBACKWARD])
    else .ret s (hr, none)

/-- The method `Pause` (lines 179-193). -/
def Pause (s : FlvSource) : Outcome FlvSource HRESULT :=
  let hr := CheckShutdown s
  if SUCCEEDED hr then
    match AsyncDo s .pause with
    | (s, hr) => .ret s hr
  else .ret s hr

/-- The method `ValidatePresentationDescriptor` (lines 1368-1381). -/
def ValidatePresentationDescriptor (_pPD : PresentationDescriptor) : HRESULT := .S_OK

/-- The method `Start` (lines 239-275). -/
def Start (s : FlvSource) (pPresentationDescriptor : Option PresentationDescriptor)
    (pguidTimeFormat : Option GUID) (pvarStartPos : Option PROPVARIANT) :
    Outcome FlvSource HRESULT :=
  match pvarStartPos, pPresentationDescriptor with
  | some startpos, some pd =>
    if pguidTimeFormat ≠ none ∧ pguidTimeFormat ≠ some GUID_NULL then
      .ret s .MF_E_UNSUPPORTED_TIME_FORMAT
    else if startpos.vt ≠ .VT_I8 ∧ startpos.vt ≠ .VT_EMPTY then
      .ret s .MF_E_UNSUPPORTED_TIME_FORMAT
    else
      let hr := CheckShutdown s
      let hr := if ok hr then IsInitialized s else hr
      let hr := if ok hr then ValidatePresentationDescriptor pd else hr
      if ok hr then
        match AsyncDo s (.start pd startpos.startpos) with
        | (s, hr) => .ret s hr
      else .ret s hr
  | _, _ => .ret s .E_INVALIDARG

/-- The method `Stop` (lines 293-306). -/
def Stop (s : FlvSource) : Outcome FlvSource HRESULT :=
  let hr := CheckShutdown s
  let hr := if ok hr then IsInitialized s else hr
  if ok hr then
    match AsyncDo s .stop with
    | (s, hr) => .ret s hr
  else .ret s hr

/-- The method `BeginOpen` (lines 329-380). `hrRead` is the status with which
the tag parser (not part of the sources) starts reading the file header. -/
def BeginOpen (s : FlvSource) (pStream : Option ByteStream) (pCB : Option Nat)
    (hrRead : HRESULT) : Outcome FlvSource HRESULT :=
  match pStream, pCB with
  | some stream, some cb =>
    if s.m_state ≠ .STATE_INVALID then .ret s .MF_E_INVALIDREQUEST
    else
      let s := { s with byte_stream := some stream, status := SourceStatus.zero }
      let hr : HRESULT := .S_OK
      let hr : HRESULT :=
        if SUCCEEDED hr then
          if !stream.seekable then .MF_E_BYTESTREAM_NOT_SEEKABLE
          else if !stream.readable then .E_FAIL
          else hr
        else hr
      let s :=
        if SUCCEEDED hr then
          { s with begin_open_caller_result := some { callback := cb, status := .S_OK } }
        else s
      let s := if SUCCEEDED hr then begin_read s .flv_header hrRead else s
      let hr := if SUCCEEDED hr then hrRead else hr
      if SUCCEEDED hr then .ret { s with m_state := .STATE_OPENING } hr
      else .ret { s with byte_stream := none } hr
  | _, _ => .ret s .E_POINTER

/-- The method `EndOpen` (lines 471-482); `status` is the status stored in the
async result. -/
def EndOpen (s : FlvSource) (status : HRESULT) : Outcome FlvSource HRESULT :=
  if FAILED status then .ret (Shutdown s).state status
  else .ret s status

/-- A call of one of the public entry points, with its arguments. -/
inductive EntryPoint where
  | BeginOpen (pStream : Option ByteStream) (pCB : Option Nat) (hrRead : HRESULT)
  | Start (pPresentationDescriptor : Option PresentationDescriptor)
      (pguidTimeFormat : Option GUID) (pvarStartPos : Option PROPVARIANT)
  | Stop
  | Pause
  | Shutdown
  | CreatePresentationDescriptor (pppd : Bool)
  | GetCharacteristics (pdwCharacteristics : Bool)
  | BeginGetEvent (fw : List MediaEvent → List MediaEvent × HRESULT)
  | EndGetEvent (fw : List MediaEvent → List MediaEvent × HRESULT)
  | GetEvent (fw : List MediaEvent → List MediaEvent × HRESULT)
  | QueueEvent (e : MediaEvent)

/-- The status with which a call of a public entry point returns; `none` when
the call faults. -/
def EntryPoint.status (s : FlvSource) : EntryPoint → Option HRESULT
  | .BeginOpen pStream pCB hrRead => (FlvSource.BeginOpen s pStream pCB hrRead).value
  | .Start pd fmt pos => (FlvSource.Start s pd fmt pos).value
  | .Stop => (FlvSource.Stop s).value
  | .Pause => (FlvSource.Pause s).value
  | .Shutdown => (FlvSource.Shutdown s).value
  | .CreatePresentationDescriptor pppd =>
    (FlvSource.CreatePresentationDescriptor s pppd).value.map Prod.fst
  | .GetCharacteristics p => (FlvSource.GetCharacteristics s p).value.map Prod.fst
  | .BeginGetEvent fw => (FlvSource.BeginGetEvent s fw).value
  | .EndGetEvent fw => (FlvSource.EndGetEvent s fw).value
  | .GetEvent fw => (FlvSource.GetEvent s fw).value
  | .QueueEvent e => (FlvSource.QueueEvent s e).value

/-! ## Concrete objects -/

/-- Stream objects that answer `S_OK` to every call. -/
def replies_ok : StreamReplies := { start := fun _ => .S_OK, stop := fun _ => .S_OK }

/-- A presentation descriptor with the video stream (0) and the audio stream
(1), both selected. -/
def both_selected : PresentationDescriptor :=
  { descriptors := [{ stream_id := 0, selected := true }, { stream_id := 1, selected := true }] }

/-- A source as an open leaves it, for a file with keyframes at positions 200
and 50200 and times 0 and 5 s: state stopped, a live and empty event queue,
two streams that are not active yet. -/
def opened_source : FlvSource :=
  { m_state := .STATE_STOPPED
    status := { SourceStatus.zero with on_meta_data_ready := true,
                                       first_audio_tag_ready := true,
                                       first_video_tag_ready := true }
    header := { first_media_tag_offset := 200,
                keyframes := { frames := [{ position := 200, time := 0 },
                                          { position := 50200, time := 50000000 }] },
                audiocodecid := audio_codec.aac,
                videocodecid := video_codec.avc,
                duration := 10, width := 640, height := 360, framerate := 30,
                avcc := { profile := 66, level := 30, nal := 4,
                          sequence_header_blob :=
                            [0, 0, 0, 1, 103, 66, 0, 30, 0, 0, 0, 1, 104, 206, 56, 128] } }
    current_keyframe := { position := 0, time := 0 }
    pending_seek_file_position := 0
    pending_eos := 0
    restart_counter := 0
    event_queue := some []
    presentation_descriptor := some both_selected
    begin_open_caller_result := none
    byte_stream := some { seekable := true, readable := true, position := 1000 }
    audio_stream := some { active := false, calls := [], stream_id := 1 }
    video_stream := some { active := false, calls := [], stream_id := 0 }
    work_items := [] }

/-- The opened source after a start and a pause: state paused, both streams
active, the video keyframe at 5 s delivered last. -/
def paused_source : FlvSource :=
  { opened_source with
    m_state := .STATE_PAUSED
    current_keyframe := { position := 50200, time := 50000000 }
    pending_eos := 2
    audio_stream := some { active := true, calls := [], stream_id := 1 }
    video_stream := some { active := true, calls := [], stream_id := 0 } }

/-- The opened source after `Shutdown`. -/
def shut_source : FlvSource := (Shutdown opened_source).state

/-- A source as `RuntimeClassInitialize` leaves it: state invalid, a live and
empty event queue, nothing else. -/
def fresh_source : FlvSource :=
  { m_state := .STATE_INVALID
    status := SourceStatus.zero
    header := { first_media_tag_offset := 0, keyframes := { frames := [] } }
    current_keyframe := { position := 0, time := 0 }
    pending_seek_file_position := 0
    pending_eos := 0
    restart_counter := 0
    event_queue := some []
    presentation_descriptor := none
    begin_open_caller_result := none
    byte_stream := none
    audio_stream := none
    video_stream := none
    work_items := [] }

/-- The fresh source after `BeginOpen` with a seekable and readable byte stream
and the callback 7: state opening, the read of the file header under way. -/
def opening_source : FlvSource :=
  (BeginOpen fresh_source (some { seekable := true, readable := true, position := 0 })
    (some 7) .S_OK).state

/-- The opened source after `DoStart` with an empty start position: state
started, both streams active, a seek to the first media tag pending. -/
def started_source : FlvSource :=
  (DoStart replies_ok opened_source both_selected .empty).state

/-- The opening source when the scan has read the file header and the header
of a first video tag: the read of the video header is under way. -/
def scanning_source : FlvSource :=
  (OnFlvTagHeader {} (OnFlvHeader {} opening_source .S_OK).state .S_OK
    { type := .video, timestamp := 0, data_size := 40, data_offset := 24 }).state

/-- The opening source when the scan has seen what it needs: the metadata of
the opened source (AAC audio, AVC video, a duration of 10 s) and both first
tags; no stream object exists yet. -/
def scanned_source : FlvSource :=
  { opening_source with
    status := { SourceStatus.zero with on_meta_data_ready := true,
                                       first_audio_tag_ready := true,
                                       first_video_tag_ready := true }
    header := opened_source.header }

/-- The scanned source for a file whose video codec is On2 VP6 (identifier 4),
the audio codec still AAC. -/
def vp6_source : FlvSource :=
  { scanned_source with header := { scanned_source.header with videocodecid := 4 } }

/-- Stream objects that answer `S_OK` to every call and ask for data. -/
def replies_need : StreamReplies :=
  { start := fun _ => .S_OK, stop := fun _ => .S_OK, needs_data := fun _ => .S_OK }

/-- An audio tag at file offset 1000, 1 s into the file, with a payload of 3
bytes after its two header bytes. -/
def audio_tag : tag_header :=
  { type := .audio, timestamp := 1000, data_size := 5, data_offset := 1011 }

/-- A video tag at file offset 2000, 1 s into the file. -/
def video_tag : tag_header :=
  { type := .video, timestamp := 1000, data_size := 12, data_offset := 2011 }

/-- The state of the payload read of the AAC audio tag `audio_tag`. -/
def audio_read : audio_packet_header :=
  audio_packet_header.of audio_tag { codec_id := audio_codec.aac }

/-- The state of the payload read of the AVC video tag `video_tag`: an inter
frame in a NALU packet with a composition time of 40 ms. -/
def video_read : video_packet_header :=
  { (video_packet_header.of video_tag
        { frame_type := .inter_frame, codec_id := video_codec.avc }) with
    avc_packet_type := .avc_nalu, composition_time := 40 }

/-- The payload of a NALU packet with one NAL unit of two bytes behind its
4-byte length. -/
def nalu_payload : packet := [0, 0, 0, 2, 101, 136]

/-- The started source in its first demux cycle: the pending seek is consumed
and the read of a tag header is under way. -/
def demuxing_source : FlvSource :=
  (DemuxSample {} replies_need started_source).state

/-- The samples the source has delivered to a stream object, in order. -/
def delivered (st : FlvStream) : List Sample :=
  st.calls.filterMap fun c =>
    match c with
    | .DeliverPayload sample => some sample
    | _ => none

/-- The state of the payload read of an AVC video tag like `video_tag` whose
frame type is generated key frame. -/
def generated_key_read : video_packet_header :=
  { video_read with frame_type := .generated_key_frame }

/-- The state of the payload read of a video tag like `video_tag` whose frame
type is generated key frame and whose codec is On2 VP6 (identifier 4). -/
def generated_key_vp6_read : video_packet_header :=
  { (video_packet_header.of video_tag
        { frame_type := .generated_key_frame, codec_id := 4 }) with payload := [] }

/-- A script tag of 300 bytes that follows the file header. -/
def meta_tag : tag_header :=
  { type := .script_data, timestamp := 0, data_size := 300, data_offset := 24 }

/-- What the parser writes into the header from the metadata of a file with AAC
audio and AVC video. -/
def meta_fill (h : flv_file_header) : flv_file_header :=
  { h with audiocodecid := audio_codec.aac, videocodecid := video_codec.avc,
           has_audio := 1, has_video := 1, duration := 10, width := 640, height := 360,
           framerate := 30 }

/-- The first audio tag of the file, behind the metadata: an AAC sequence
header of 2 bytes after its two header bytes. -/
def first_audio_tag : tag_header :=
  { type := .audio, timestamp := 0, data_size := 4, data_offset := 339 }

/-- The second audio tag of the file: an AAC frame of 7 bytes after its two
header bytes. -/
def second_audio_tag : tag_header :=
  { type := .audio, timestamp := 0, data_size := 9, data_offset := 358 }

/-- The opening source when the scan has read the file header and the
metadata: the read of the next tag header is under way. -/
def meta_scanned_source : FlvSource :=
  (OnMetaData {}
    (OnFlvTagHeader {} (OnFlvHeader {} opening_source .S_OK).state .S_OK meta_tag).state
    .S_OK meta_fill).state

/-- The opening source when the scan has gone on to read the first audio tag,
`first_audio_tag`, to its end: tag header, audio header, AAC packet type and
payload. The video tag is still to come, so the read of the next tag header is
under way. -/
def audio_scanned_source : FlvSource :=
  let s := (OnFlvTagHeader {} meta_scanned_source .S_OK first_audio_tag).state
  let s := (OnAudioHeader {} s .S_OK first_audio_tag { codec_id := audio_codec.aac }).state
  let ash := audio_packet_header.of first_audio_tag { codec_id := audio_codec.aac }
  let s := (OnAacPacketType {} s .S_OK ash .aac_sequence_header).state
  (OnAudioData {} replies_ok s .S_OK { ash with aac_packet_type := .aac_sequence_header }
    [18, 16]).state

/-- A script tag in the middle of the file. -/
def cue_tag : tag_header :=
  { type := .script_data, timestamp := 1500, data_size := 30, data_offset := 3011 }

/-- A tag of a kind the container does not define. -/
def unknown_tag : tag_header :=
  { type := .other 15, timestamp := 1500, data_size := 30, data_offset := 3011 }

/-- What the parser reports for a read of zero bytes at the end of the file. -/
def eof_tag : tag_header :=
  { type := .eof, timestamp := 0, data_size := 0, data_offset := 0 }

/-- The source in its first demux cycle once the reads of the audio tag
`audio_tag` have come as far as the payload: tag header, audio header and AAC
packet type are read and the read of the payload is under way. -/
def audio_reading_source : FlvSource :=
  let s := (OnSampleHeader {} demuxing_source .S_OK audio_tag).state
  let s := (OnAudioHeader {} s .S_OK audio_tag { codec_id := audio_codec.aac }).state
  (OnAacPacketType {} s .S_OK
    (audio_packet_header.of audio_tag { codec_id := audio_codec.aac }) .aac_raw).state

/-- The source stopped while that read of the payload is under way. -/
def stopped_reading_source : FlvSource :=
  (DoStop replies_ok audio_reading_source).state

/-- The source shut down while that read of the payload is under way. -/
def shut_reading_source : FlvSource :=
  (Shutdown audio_reading_source).state

/-- The source after the tag header read of its first demux cycle has
completed with the script tag `cue_tag`. -/
def skipped_source : FlvSource :=
  (OnSampleHeader {} demuxing_source .S_OK cue_tag).state

/-- The source after the tag header read of its first demux cycle has
completed with the end of the file. -/
def ended_source : FlvSource :=
  (OnSampleHeader {} demuxing_source .S_OK eof_tag).state

/-- The source after the end of the file and then a seek back to the start:
`DoStart` with the time 0. -/
def ended_seeked_source : FlvSource :=
  (DoStart replies_ok ended_source both_selected (.time 0)).state

/-- The started source while an operation is in progress: `processing_op` is
set. -/
def busy_source : FlvSource := enter_op started_source

/-- Stream objects whose `Start` fails. -/
def replies_start_fails : StreamReplies :=
  { start := fun _ => .E_FAIL, stop := fun _ => .S_OK }

/-! ## Notions used in the statements -/

/-- The members `SelectStreams` and the event queue leave alone: the state,
the status flags and the pending seek position. -/
def control_part (s : FlvSource) : SourceState × SourceStatus × Nat :=
  (s.m_state, s.status, s.pending_seek_file_position)

/-- The record of a pending seek: the flag and the file position. -/
def seek_part (s : FlvSource) : Bool × Nat :=
  (s.status.pending_seek, s.pending_seek_file_position)

/-- The source-level start events: `MESourceStarted` and `MESourceSeeked`. -/
def is_source_start (e : MediaEvent) : Bool :=
  decide (e.met = .MESourceStarted) || decide (e.met = .MESourceSeeked)

/-- The stream events of `SelectStreams`: `MENewStream` and `MEUpdatedStream`. -/
def is_stream_event (e : MediaEvent) : Bool :=
  decide (e.met = .MENewStream) || decide (e.met = .MEUpdatedStream)

/-- The event `MEEndOfPresentation` as `DoEndOfStream` queues it. -/
def end_of_presentation : MediaEvent :=
  { met := .MEEndOfPresentation, status := .S_OK, value := .empty, actual_start := none }

/-- The number of stream descriptors marked selected. -/
def selected_count (ds : List StreamDescriptor) : Nat :=
  (ds.filter (fun d => d.selected)).length

end FlvSource

end Flv

namespace Flv
open FlvSource

/-! ## Lemmas on the helpers -/

theorem Outcome.bind_state_proj {σ α β γ : Type} (π : σ → γ) (o : Outcome σ α)
    (f : σ → α → Outcome σ β) (s0 : σ) (h1 : π o.state = π s0)
    (h2 : ∀ s v, π (f s v).state = π s) : π (o.bind f).state = π s0 := by
  cases o with
  | ret s v => exact (h2 s v).trans h1
  | fault s => exact h1

theorem Outcome.bind_eq_ret {σ α β : Type} {o : Outcome σ α} {f : σ → α → Outcome σ β}
    {s' : σ} {v' : β} (h : o.bind f = .ret s' v') :
    ∃ s1 v1, o = .ret s1 v1 ∧ f s1 v1 = .ret s' v' := by
  cases o with
  | ret s v => exact ⟨s, v, rfl, h⟩
  | fault s => simp [Outcome.bind] at h

theorem Outcome.bind_ret {σ α β : Type} (s : σ) (v : α) (f : σ → α → Outcome σ β) :
    (Outcome.ret s v).bind f = f s v := rfl

theorem queue_event_control (s : FlvSource) (e : MediaEvent) :
    control_part (queue_event s e).state = control_part s := by
  unfold queue_event
  cases s.event_queue <;> simp [Outcome.state, control_part]

theorem queue_event_ret {s s' : FlvSource} {e : MediaEvent} {hr : HRESULT}
    (h : queue_event s e = .ret s' hr) :
    ∃ q, s.event_queue = some q ∧ s'.event_queue = some (q ++ [e]) ∧
      s'.pending_eos = s.pending_eos ∧ control_part s' = control_part s ∧ hr = .S_OK := by
  unfold queue_event at h
  cases hq : s.event_queue with
  | none => simp [hq] at h
  | some q =>
    simp only [hq, Outcome.ret.injEq] at h
    obtain ⟨hs, hhr⟩ := h
    subst hs
    exact ⟨q, rfl, rfl, rfl, rfl, hhr.symm⟩

theorem set_stream_control (s : FlvSource) (id : Nat) (st : FlvStream) :
    control_part (set_stream s id st) = control_part s := by
  unfold set_stream control_part
  split <;> rfl

theorem set_stream_event_queue (s : FlvSource) (id : Nat) (st : FlvStream) :
    (set_stream s id st).event_queue = s.event_queue := by
  unfold set_stream
  split <;> rfl

theorem set_stream_pending_eos (s : FlvSource) (id : Nat) (st : FlvStream) :
    (set_stream s id st).pending_eos = s.pending_eos := by
  unfold set_stream
  split <;> rfl

/-- The body of the loop of `SelectStreams` leaves the control members alone,
whether it returns or faults. -/
theorem SelectStreams_body_control (d : StreamDescriptor) (s : FlvSource) :
    control_part (SelectStreams.body d s).state = control_part s := by
  unfold SelectStreams.body
  split
  · split
    · rfl
    · dsimp only
      split
      · apply Outcome.bind_state_proj
        · rw [queue_event_control]
          exact set_stream_control _ _ _
        · intro s v; rfl
      · split
        · simp only [Outcome.state, set_stream_control]
        · simp only [Outcome.state, set_stream_control]
  · rfl

theorem SelectStreams_loop_control (ds : List StreamDescriptor) :
    ∀ (s : FlvSource) (hr : HRESULT),
      control_part (SelectStreams.loop ds s hr).state = control_part s := by
  induction ds with
  | nil => intro s hr; rfl
  | cons d ds ih =>
    intro s hr
    simp only [SelectStreams.loop]
    apply Outcome.bind_state_proj
    · exact SelectStreams_body_control d s
    · intro s1 res
      split
      · rfl
      · exact ih s1 res.1

theorem DWORD_MOD_eq : DWORD_MOD = 4294967296 := by norm_num [DWORD_MOD]

/-- What a pass through the body of the loop of `SelectStreams` that does not
fault has done: an early return carries a failing status; the event queue has
grown by stream events only; `pending_eos` went up by one exactly for a
selected descriptor. -/
theorem SelectStreams_body_ret {d : StreamDescriptor} {s s' : FlvSource} {hr : HRESULT}
    {b : Bool} (h : SelectStreams.body d s = .ret s' (hr, b)) :
    (b = true → SUCCEEDED hr = false) ∧
    (∃ evs, s'.event_queue = s.event_queue.map (fun q => q ++ evs) ∧
        ∀ e ∈ evs, is_stream_event e = true) ∧
    (b = false → s'.pending_eos
        = if d.selected then (s.pending_eos + 1) % DWORD_MOD else s.pending_eos) := by
  unfold SelectStreams.body at h
  split at h
  · split at h
    · exact absurd h (by simp)
    · rename_i st hst
      dsimp only at h
      split at h
      · rename_i hsel
        obtain ⟨s1, v1, h1, h2⟩ := Outcome.bind_eq_ret h
        obtain ⟨q, hq, hq1, hpe1, _, hv1⟩ := queue_event_ret h1
        simp only [Outcome.ret.injEq, Prod.mk.injEq] at h2
        obtain ⟨h2s, h2hr, h2b⟩ := h2
        subst h2s h2b
        simp only [Bool.and_eq_true] at hsel
        simp only [set_stream_event_queue] at hq
        simp only [set_stream_pending_eos] at hpe1
        refine ⟨by simp, ⟨_, by rw [hq1, hq]; rfl, ?_⟩, ?_⟩
        · intro e he
          simp only [List.mem_singleton] at he
          subst he
          unfold is_stream_event
          split <;> simp
        · intro _
          rw [hpe1]
          simp [hsel.2]
      · rename_i hsel
        have hnsel : d.selected = false := by
          simpa [ok, SUCCEEDED, FlvStream.Active] using hsel
        split at h
        · simp only [Outcome.ret.injEq, Prod.mk.injEq] at h
          obtain ⟨hs, _, hb⟩ := h
          subst hs hb
          refine ⟨by simp, ⟨[], ?_, by simp⟩, ?_⟩
          · cases hq : s.event_queue <;> simp [set_stream_event_queue, hq]
          · intro _; simp [hnsel, set_stream_pending_eos]
        · simp only [Outcome.ret.injEq, Prod.mk.injEq] at h
          obtain ⟨hs, _, hb⟩ := h
          subst hs hb
          refine ⟨by simp, ⟨[], ?_, by simp⟩, ?_⟩
          · cases hq : s.event_queue <;> simp [set_stream_event_queue, hq]
          · intro _; simp [hnsel, set_stream_pending_eos]
  · simp only [Outcome.ret.injEq, Prod.mk.injEq] at h
    obtain ⟨hs, hhr, hb⟩ := h
    subst hs hhr hb
    refine ⟨fun _ => rfl, ⟨[], ?_, by simp⟩, by simp⟩
    cases hq : s.event_queue <;> simp

/-- A run of the loop of `SelectStreams` that returns has added stream events
only to the event queue; when it returns success, `pending_eos` has gone up by
the number of selected descriptors. -/
theorem SelectStreams_loop_ret (ds : List StreamDescriptor) :
    ∀ {s s' : FlvSource} {hr hr' : HRESULT}, SelectStreams.loop ds s hr = .ret s' hr' →
      (∃ evs, s'.event_queue = s.event_queue.map (fun q => q ++ evs) ∧
          ∀ e ∈ evs, is_stream_event e = true) ∧
      (SUCCEEDED hr' = true → s.pending_eos < DWORD_MOD →
          s'.pending_eos = (s.pending_eos + selected_count ds) % DWORD_MOD) := by
  induction ds with
  | nil =>
    intro s s' hr hr' h
    simp only [SelectStreams.loop, Outcome.ret.injEq] at h
    obtain ⟨hs, _⟩ := h
    subst hs
    refine ⟨⟨[], ?_, by simp⟩, ?_⟩
    · cases hq : s.event_queue <;> simp
    · intro _ hlt
      simp [selected_count, Nat.mod_eq_of_lt hlt]
  | cons d ds ih =>
    intro s s' hr hr' h
    simp only [SelectStreams.loop] at h
    obtain ⟨s1, ⟨hr1, b⟩, hbody, hrest⟩ := Outcome.bind_eq_ret h
    obtain ⟨hfail, ⟨evs1, hq1, hev1⟩, hpe1⟩ := SelectStreams_body_ret hbody
    cases b with
    | true =>
      simp only [if_true, Outcome.ret.injEq] at hrest
      obtain ⟨hs, hhr⟩ := hrest
      subst hs hhr
      refine ⟨⟨evs1, hq1, hev1⟩, ?_⟩
      intro hsucc
      rw [hfail rfl] at hsucc
      exact absurd hsucc (by simp)
    | false =>
      simp only [Bool.false_eq_true, if_false] at hrest
      obtain ⟨⟨evs2, hq2, hev2⟩, hpe2⟩ := ih hrest
      refine ⟨⟨evs1 ++ evs2, ?_, ?_⟩, ?_⟩
      · rw [hq2, hq1]
        cases s.event_queue <;> simp
      · intro e he
        rcases List.mem_append.mp he with he | he
        · exact hev1 e he
        · exact hev2 e he
      · intro hsucc hlt
        have h1 := hpe1 rfl
        have hlt1 : s1.pending_eos < DWORD_MOD := by
          rw [h1]
          split
          · exact Nat.mod_lt _ (by rw [DWORD_MOD_eq]; norm_num)
          · exact hlt
        rw [hpe2 hsucc hlt1, h1]
        unfold selected_count
        rw [DWORD_MOD_eq] at *
        cases hsel : d.selected
        · simp [hsel, List.filter_cons]
        · simp only [hsel, List.filter_cons, if_true, List.length_cons]
          omega

/-! ## Lemmas on `DoStart` -/

theorem seek_part_of_control {a b : FlvSource} (h : control_part a = control_part b) :
    seek_part a = seek_part b := by
  simp only [control_part, Prod.mk.injEq] at h
  simp [seek_part, h.2.1, h.2.2]

theorem m_state_of_control {a b : FlvSource} (h : control_part a = control_part b) :
    a.m_state = b.m_state := by
  simp only [control_part, Prod.mk.injEq] at h
  exact h.1

theorem DoStart_position_frame (s : FlvSource) (startpos : StartPos) :
    (DoStart.position s startpos).1.m_state = s.m_state ∧
    (DoStart.position s startpos).1.event_queue = s.event_queue := by
  unfold DoStart.position
  cases startpos with
  | empty => dsimp only; split <;> exact ⟨rfl, rfl⟩
  | time t => exact ⟨rfl, rfl⟩

theorem DoStart_notify_seek_part (s : FlvSource) (k : keyframe) (isseek : Bool) (hr : HRESULT) :
    seek_part (DoStart.notify s k isseek hr).state = seek_part s := by
  unfold DoStart.notify
  split
  · unfold QueueEvent
    dsimp only
    split
    · exact seek_part_of_control (queue_event_control _ _)
    · rfl
  · split
    · dsimp only
      exact (seek_part_of_control (queue_event_control _ _)).trans rfl
    · rfl

theorem DoStart_streams_frame (r : StreamReplies) (s : FlvSource) (k : keyframe)
    (isseek : Bool) (hr : HRESULT) :
    seek_part (DoStart.streams r s k isseek hr).1 = seek_part s ∧
    (DoStart.streams r s k isseek hr).1.m_state = s.m_state ∧
    (DoStart.streams r s k isseek hr).1.event_queue = s.event_queue := by
  unfold DoStart.streams
  cases ok hr <;> cases s.audio_stream <;> dsimp only <;>
    split <;> exact ⟨rfl, rfl, rfl⟩

theorem DoStart_streams_of_fail (r : StreamReplies) (s : FlvSource) (k : keyframe)
    (isseek : Bool) (hr : HRESULT) (h : ok hr = false) :
    (DoStart.streams r s k isseek hr).2 = hr := by
  unfold DoStart.streams
  simp [h]

theorem DoStart_finish_seek_part (s : FlvSource) (hr : HRESULT) :
    seek_part (DoStart.finish s hr).state = seek_part s := by
  unfold DoStart.finish
  split
  · apply Outcome.bind_state_proj
    · exact seek_part_of_control (queue_event_control _ _)
    · intro s v; rfl
  · rfl

theorem DoStart_finish_ret {s s' : FlvSource} {hr hr' : HRESULT}
    (h : DoStart.finish s hr = .ret s' hr') :
    hr' = hr ∧ (SUCCEEDED hr = true → s' = leave_op s) := by
  unfold DoStart.finish at h
  split at h
  · rename_i hf
    obtain ⟨s1, v1, _, h2⟩ := Outcome.bind_eq_ret h
    simp only [Outcome.ret.injEq] at h2
    refine ⟨h2.2.symm, fun hs => ?_⟩
    simp [FAILED, hs] at hf
  · simp only [Outcome.ret.injEq] at h
    exact ⟨h.2.symm, fun _ => h.1.symm⟩

/-- Whatever `DoStart` goes on to do, the pending seek it leaves behind is the
one recorded by its first part. -/
theorem DoStart_seek_part (r : StreamReplies) (s : FlvSource) (pd : PresentationDescriptor)
    (startpos : StartPos) :
    seek_part (DoStart r s pd startpos).state = seek_part (DoStart.position s startpos).1 := by
  unfold DoStart
  dsimp only
  apply Outcome.bind_state_proj
  · unfold SelectStreams
    exact seek_part_of_control (SelectStreams_loop_control _ _ _)
  · intro s1 hr1
    apply Outcome.bind_state_proj
    · exact DoStart_notify_seek_part _ _ _ _
    · intro s2 hr2
      rw [DoStart_finish_seek_part]
      exact (DoStart_streams_frame r s2 _ _ hr2).1

/-- A `DoStart` that returns success has queued, after the stream events of
`SelectStreams`, one last event: `MESourceSeeked` when the start is a seek and
the state is left as it was, `MESourceStarted` with the actual start time when
it is not and the state becomes started. The event carries the time of the
keyframe chosen by the first part. -/
theorem DoStart_ret_success {r : StreamReplies} {s s' : FlvSource}
    {pd : PresentationDescriptor} {startpos : StartPos} {hr : HRESULT}
    (h : DoStart r s pd startpos = .ret s' hr) (hs : SUCCEEDED hr = true) :
    ∃ q evs e, s.event_queue = some q ∧ s'.event_queue = some (q ++ evs ++ [e]) ∧
      (∀ x ∈ evs, is_stream_event x = true) ∧
      e.value = .time (DoStart.position s startpos).2.1.time ∧
      (if (DoStart.position s startpos).2.2 = true
        then e.met = .MESourceSeeked ∧ e.actual_start = none ∧ s'.m_state = s.m_state
        else e.met = .MESourceStarted ∧
          e.actual_start = some (DoStart.position s startpos).2.1.time ∧
          s'.m_state = .STATE_STARTED) := by
  unfold DoStart at h
  dsimp only at h
  obtain ⟨s1, hr1, hsel, h⟩ := Outcome.bind_eq_ret h
  obtain ⟨s2, hr2, hnot, hfin⟩ := Outcome.bind_eq_ret h
  obtain ⟨hhr, hleave⟩ := DoStart_finish_ret hfin
  have hok2 : SUCCEEDED hr2 = true := by
    cases hc : SUCCEEDED hr2 with
    | true => rfl
    | false =>
      have h3 := DoStart_streams_of_fail r s2 (DoStart.position s startpos).2.1
        (DoStart.position s startpos).2.2 hr2 (by simpa [ok] using hc)
      rw [h3] at hhr
      rw [hhr, hc] at hs
      exact absurd hs (by simp)
  have hs' := hleave (by rw [← hhr]; exact hs)
  obtain ⟨_, hfm, hfq⟩ := DoStart_streams_frame r s2 (DoStart.position s startpos).2.1
    (DoStart.position s startpos).2.2 hr2
  have hq' : s'.event_queue = s2.event_queue := by rw [hs']; exact hfq
  have hm' : s'.m_state = s2.m_state := by rw [hs']; exact hfm
  unfold SelectStreams at hsel
  obtain ⟨⟨evs, hq1, hev⟩, _⟩ := SelectStreams_loop_ret _ hsel
  have hm1 : s1.m_state = s.m_state := by
    have hc := SelectStreams_loop_control pd.descriptors
      { (DoStart.position s startpos).1 with pending_eos := 0 } .S_OK
    rw [hsel] at hc
    exact (m_state_of_control hc).trans (DoStart_position_frame s startpos).1
  have hq1' : s1.event_queue = s.event_queue.map (fun q => q ++ evs) := by
    rw [hq1]
    exact congrArg _ (DoStart_position_frame s startpos).2
  have key : ∀ e, (∃ q1, s1.event_queue = some q1 ∧ s2.event_queue = some (q1 ++ [e])) →
      ∃ q, s.event_queue = some q ∧ s'.event_queue = some (q ++ evs ++ [e]) := by
    intro e ⟨q1, h1, h2⟩
    rw [hq1'] at h1
    cases hq : s.event_queue with
    | none => simp [hq] at h1
    | some q =>
      simp only [hq, Option.map_some', Option.some.injEq] at h1
      exact ⟨q, rfl, by rw [hq', h2, h1]⟩
  unfold DoStart.notify at hnot
  split at hnot
  · rename_i hcond
    simp only [Bool.and_eq_true] at hcond
    unfold QueueEvent at hnot
    dsimp only at hnot
    split at hnot
    · obtain ⟨q1, hqa, hqb, _, hc, _⟩ := queue_event_ret hnot
      obtain ⟨q, hq, hqs⟩ := key _ ⟨q1, hqa, hqb⟩
      refine ⟨q, evs, _, hq, hqs, hev, rfl, ?_⟩
      rw [if_pos hcond.2]
      exact ⟨rfl, rfl, by rw [hm', m_state_of_control hc, hm1]⟩
    · rename_i hsd
      simp only [Outcome.ret.injEq] at hnot
      rw [hnot.2] at hsd
      exact absurd hok2 hsd
  · rename_i hcond
    split at hnot
    · rename_i hs1
      have hseek : (DoStart.position s startpos).2.2 = false := by
        cases hb : (DoStart.position s startpos).2.2 with
        | false => rfl
        | true => simp [ok, hs1, hb] at hcond
      obtain ⟨q1, hqa, hqb, _, hc, _⟩ := queue_event_ret hnot
      obtain ⟨q, hq, hqs⟩ := key _ ⟨q1, hqa, hqb⟩
      refine ⟨q, evs, _, hq, hqs, hev, rfl, ?_⟩
      rw [if_neg (by simp [hseek])]
      exact ⟨rfl, rfl, by rw [hm', m_state_of_control hc]⟩
    · rename_i hs1
      simp only [Outcome.ret.injEq] at hnot
      rw [hnot.2] at hs1
      exact absurd hok2 hs1

/-! ## Shutdown -/

/-- The public entry points and `DoEndOfStream` leave a source that is shut
down in state shutdown. -/
theorem shutdown_kept_by_entry_points (s : FlvSource) (h : s.m_state = .STATE_SHUTDOWN) :
    (∀ pStream pCB hrRead, (BeginOpen s pStream pCB hrRead).state.m_state = .STATE_SHUTDOWN) ∧
    (∀ pd fmt pos, (Start s pd fmt pos).state.m_state = .STATE_SHUTDOWN) ∧
    (Stop s).state.m_state = .STATE_SHUTDOWN ∧
    (Pause s).state.m_state = .STATE_SHUTDOWN ∧
    (Shutdown s).state.m_state = .STATE_SHUTDOWN ∧
    (∀ status, (EndOpen s status).state.m_state = .STATE_SHUTDOWN) ∧
    (DoEndOfStream s).state.m_state = .STATE_SHUTDOWN := by
  have hsd : (Shutdown s).state.m_state = .STATE_SHUTDOWN := by
    simp [Shutdown, CheckShutdown, h, fail, FAILED, SUCCEEDED, Outcome.state]
  refine ⟨?_, ?_, ?_, ?_, hsd, ?_, ?_⟩
  · intro pStream pCB hrRead
    unfold BeginOpen
    split
    · simp [h, Outcome.state]
    · exact h
  · intro pd fmt pos
    unfold Start
    split
    · split
      · exact h
      · split
        · exact h
        · simp [CheckShutdown, h, ok, SUCCEEDED, Outcome.state]
    · exact h
  · simp [Stop, CheckShutdown, h, ok, SUCCEEDED, Outcome.state]
  · simp [Pause, CheckShutdown, h, SUCCEEDED, Outcome.state]
  · intro status
    unfold EndOpen
    split
    · exact hsd
    · exact h
  · unfold DoEndOfStream
    dsimp only
    split
    · have hc := m_state_of_control (queue_event_control
        { enter_op s with pending_eos := ((enter_op s).pending_eos + DWORD_MOD - 1) % DWORD_MOD }
        { met := .MEEndOfPresentation, status := .S_OK, value := .empty, actual_start := none })
      cases hq : queue_event
        { enter_op s with pending_eos := ((enter_op s).pending_eos + DWORD_MOD - 1) % DWORD_MOD }
        { met := .MEEndOfPresentation, status := .S_OK, value := .empty, actual_start := none } with
      | fault s1 =>
        rw [hq] at hc
        exact hc.trans h
      | ret s1 hr1 =>
        rw [hq] at hc
        simp only [Outcome.bind]
        split <;> exact hc.trans h
    · exact h

/-- C1 (code defect). Shutdown is not terminal for the queued work items: on the
source shut down after its open, `DoStop` stores state stopped and `DoPause`
stores state paused before they fault on the released event queue; neither
returns. -/
theorem shutdown_not_terminal_for_work_items :
    shut_source.m_state = .STATE_SHUTDOWN ∧
    (DoStop replies_ok shut_source).state.m_state = .STATE_STOPPED ∧
    (DoStop replies_ok shut_source).value = none ∧
    (DoPause shut_source).state.m_state = .STATE_PAUSED ∧
    (DoPause shut_source).value = none := by
  decide

/-- C2 (counterexample). It is not so that every public entry point returns the
shutdown error in state shutdown: `BeginOpen` with a stream and a callback
returns `MF_E_INVALIDREQUEST` there. -/
theorem BeginOpen_after_shutdown_is_invalid_request :
    ¬ ∀ (s : FlvSource) (ep : EntryPoint), s.m_state = .STATE_SHUTDOWN →
        ep.status s = some .MF_E_SHUTDOWN := by
  intro h
  have h1 := h shut_source
    (.BeginOpen (some { seekable := true, readable := true, position := 0 }) (some 0) .S_OK)
    (by decide)
  revert h1
  decide

/-- C2 (amended). In state shutdown, `Stop`, `Pause`, `Shutdown`, `BeginGetEvent`,
`EndGetEvent`, `GetEvent` and `QueueEvent` return the shutdown error whatever
their arguments; `Start`, `CreatePresentationDescriptor` and
`GetCharacteristics` return it when their arguments pass the checks made before
the state is looked at; `BeginOpen` with a stream and a callback returns the
invalid-request error. -/
theorem shutdown_error_in_state_shutdown (s : FlvSource) (h : s.m_state = .STATE_SHUTDOWN) :
    (Stop s).value = some .MF_E_SHUTDOWN ∧
    (Pause s).value = some .MF_E_SHUTDOWN ∧
    (Shutdown s).value = some .MF_E_SHUTDOWN ∧
    (∀ fw, (BeginGetEvent s fw).value = some .MF_E_SHUTDOWN) ∧
    (∀ fw, (EndGetEvent s fw).value = some .MF_E_SHUTDOWN) ∧
    (∀ fw, (GetEvent s fw).value = some .MF_E_SHUTDOWN) ∧
    (∀ e, (QueueEvent s e).value = some .MF_E_SHUTDOWN) ∧
    (∀ pd fmt pos, (fmt = none ∨ fmt = some GUID_NULL) →
        (pos.vt = .VT_I8 ∨ pos.vt = .VT_EMPTY) →
        (Start s (some pd) fmt (some pos)).value = some .MF_E_SHUTDOWN) ∧
    ((CreatePresentationDescriptor s true).value.map Prod.fst = some .MF_E_SHUTDOWN) ∧
    ((GetCharacteristics s true).value.map Prod.fst = some .MF_E_SHUTDOWN) ∧
    (∀ stream cb hrRead,
        (BeginOpen s (some stream) (some cb) hrRead).value = some .MF_E_INVALIDREQUEST) := by
  refine ⟨?_, ?_, ?_, ?_, ?_, ?_, ?_, ?_, ?_, ?_, ?_⟩
  · simp [Stop, CheckShutdown, h, ok, SUCCEEDED, Outcome.value]
  · simp [Pause, CheckShutdown, h, SUCCEEDED, Outcome.value]
  · simp [Shutdown, CheckShutdown, h, fail, FAILED, SUCCEEDED, Outcome.value]
  · intro fw; simp [BeginGetEvent, CheckShutdown, h, SUCCEEDED, Outcome.value]
  · intro fw; simp [EndGetEvent, CheckShutdown, h, SUCCEEDED, Outcome.value]
  · intro fw; simp [GetEvent, CheckShutdown, h, SUCCEEDED, Outcome.value]
  · intro e; simp [QueueEvent, CheckShutdown, h, SUCCEEDED, Outcome.value]
  · intro pd fmt pos hfmt hvt
    have h1 : ¬ (fmt ≠ none ∧ fmt ≠ some GUID_NULL) := by
      rcases hfmt with hf | hf <;> simp [hf]
    have h2 : ¬ (pos.vt ≠ .VT_I8 ∧ pos.vt ≠ .VT_EMPTY) := by
      rcases hvt with hv | hv <;> simp [hv]
    simp [Start, h1, h2, CheckShutdown, h, ok, SUCCEEDED, Outcome.value]
  · simp [CreatePresentationDescriptor, CheckShutdown, h, ok, SUCCEEDED, Outcome.value]
  · simp [GetCharacteristics, CheckShutdown, h, SUCCEEDED, Outcome.value]
  · intro stream cb hrRead
    simp [BeginOpen, h, Outcome.value]

theorem shutdown_error_in_state_shutdown_witness :
    shut_source.m_state = .STATE_SHUTDOWN ∧
    (Stop shut_source).value = some .MF_E_SHUTDOWN ∧
    (Pause shut_source).value = some .MF_E_SHUTDOWN ∧
    (Start shut_source (some both_selected) none
        (some { vt := .VT_I8, hVal := 50000000 })).value = some .MF_E_SHUTDOWN :=
  have h := shutdown_error_in_state_shutdown shut_source (by decide)
  ⟨by decide, h.1, h.2.1,
    h.2.2.2.2.2.2.2.1 both_selected none { vt := .VT_I8, hVal := 50000000 }
      (Or.inl rfl) (Or.inl rfl)⟩

/-! ## Pause -/

/-- C3 (code defect). `DoPause` on the opened source, whose state is stopped,
returns the invalid-state-transition error and all the same leaves the source
in state paused. -/
theorem DoPause_from_stopped_enters_paused :
    opened_source.m_state = .STATE_STOPPED ∧
    (DoPause opened_source).value = some .MF_E_INVALID_STATE_TRANSITION ∧
    (DoPause opened_source).state.m_state = .STATE_PAUSED := by
  decide

/-- The status `DoPause` returns: success exactly from state started, the
invalid-state-transition error from every other state (when it returns). -/
theorem DoPause_status (s s' : FlvSource) (hr : HRESULT) (h : DoPause s = .ret s' hr) :
    (s.m_state = .STATE_STARTED → hr = .S_OK) ∧
    (s.m_state ≠ .STATE_STARTED → hr = .MF_E_INVALID_STATE_TRANSITION) ∧
    s'.m_state = .STATE_PAUSED := by
  unfold DoPause at h
  dsimp only at h
  obtain ⟨s1, v1, h1, h2⟩ := Outcome.bind_eq_ret h
  simp only [Outcome.ret.injEq] at h2
  obtain ⟨_, _, _, _, hc, _⟩ := queue_event_ret h1
  have hm : s'.m_state = .STATE_PAUSED := by
    rw [← h2.1]
    exact m_state_of_control hc
  refine ⟨fun hst => ?_, fun hst => ?_, hm⟩
  · rw [← h2.2]; simp [enter_op, hst]
  · rw [← h2.2]; simp [enter_op, hst]

/-! ## Start -/

/-- C4 (code defect). `DoStart` with a 64-bit time on the paused source returns
success and leaves the state paused, not started. -/
theorem DoStart_seek_from_paused_stays_paused :
    paused_source.m_state = .STATE_PAUSED ∧
    (DoStart replies_ok paused_source both_selected (.time 50000000)).value = some .S_OK ∧
    (DoStart replies_ok paused_source both_selected (.time 50000000)).state.m_state
      = .STATE_PAUSED := by
  decide

theorem wrap64_sub_of_le (p : Nat) (h4 : 4 ≤ p) (h64 : p < QWORD_MOD) :
    wrap64 ((p : Int) - (flv_previous_tag_size_field_length : Int)) = p - 4 := by
  unfold wrap64 flv_previous_tag_size_field_length
  have hq : QWORD_MOD = 18446744073709551616 := by norm_num [QWORD_MOD]
  rw [hq] at h64 ⊢
  have h1 : ((p : Int) - ((4 : Nat) : Int)) = ((p - 4 : Nat) : Int) := by omega
  rw [h1, ← Int.natCast_mod, Int.toNat_ofNat]
  exact Nat.mod_eq_of_lt (by omega)

/-- C5. For every 64-bit time `t`, `DoStart` leaves `pending_seek` set and
`pending_seek_file_position` equal to the position of the keyframe
`keyframes.seek(t)` minus 4 in unsigned 64-bit arithmetic, which is the plain
difference for a position from 4 on; this whether the operation goes on to
return or not. For the keyframe at position 50200 and time 50000000 and
`t = 50000000` the position is 50196. -/
theorem DoStart_time_pending_seek (r : StreamReplies) (s : FlvSource)
    (pd : PresentationDescriptor) (t : Int) :
    (DoStart r s pd (.time t)).state.status.pending_seek = true ∧
    (DoStart r s pd (.time t)).state.pending_seek_file_position
      = wrap64 (((s.header.keyframes.seek s.header.first_media_tag_offset t).position : Int)
          - (flv_previous_tag_size_field_length : Int)) ∧
    (4 ≤ (s.header.keyframes.seek s.header.first_media_tag_offset t).position →
      (s.header.keyframes.seek s.header.first_media_tag_offset t).position < QWORD_MOD →
      (DoStart r s pd (.time t)).state.pending_seek_file_position
        = (s.header.keyframes.seek s.header.first_media_tag_offset t).position - 4) ∧
    (DoStart replies_ok opened_source both_selected (.time 50000000)).state.pending_seek_file_position
      = 50196 := by
  have h := DoStart_seek_part r s pd (.time t)
  simp only [seek_part, DoStart.position, enter_op, Prod.mk.injEq] at h
  refine ⟨h.1, h.2, fun h4 h64 => ?_, by decide⟩
  rw [h.2]
  exact wrap64_sub_of_le _ h4 h64

theorem stream_event_not_source_start (e : MediaEvent) (h : is_stream_event e = true) :
    is_source_start e = false := by
  unfold is_stream_event at h
  unfold is_source_start
  cases hm : e.met <;> simp_all

/-- C6. A `DoStart` with a 64-bit time that returns success has queued exactly
one source-level start event: `MESourceStarted`, carrying the actual start
time, when the state before was stopped, and `MESourceSeeked` otherwise. Its
value is the time of the keyframe `keyframes.seek(t)`. -/
theorem DoStart_time_start_event (r : StreamReplies) (s s' : FlvSource)
    (pd : PresentationDescriptor) (t : Int) (hr : HRESULT)
    (h : DoStart r s pd (.time t) = .ret s' hr) (hs : SUCCEEDED hr = true) :
    ∃ q evs e, s.event_queue = some q ∧ s'.event_queue = some (q ++ evs) ∧
      evs.filter is_source_start = [e] ∧
      e.value = .time (s.header.keyframes.seek s.header.first_media_tag_offset t).time ∧
      (if s.m_state = .STATE_STOPPED
        then e.met = .MESourceStarted ∧ e.actual_start
          = some (s.header.keyframes.seek s.header.first_media_tag_offset t).time
        else e.met = .MESourceSeeked) := by
  obtain ⟨q, evs, e, hq, hq', hev, hval, hkind⟩ := DoStart_ret_success h hs
  have hp1 : (DoStart.position s (.time t)).2.1
      = s.header.keyframes.seek s.header.first_media_tag_offset t := rfl
  have hp2 : (DoStart.position s (.time t)).2.2 = decide (s.m_state ≠ .STATE_STOPPED) := rfl
  rw [hp1] at hval hkind
  rw [hp2] at hkind
  have hnone : evs.filter is_source_start = [] := by
    rw [List.filter_eq_nil_iff]
    intro x hx
    simp [stream_event_not_source_start x (hev x hx)]
  have hmet : e.met = .MESourceStarted ∨ e.met = .MESourceSeeked := by
    split at hkind
    · exact Or.inr hkind.1
    · exact Or.inl hkind.1
  have hstart : is_source_start e = true := by
    unfold is_source_start
    rcases hmet with hm | hm <;> simp [hm]
  refine ⟨q, evs ++ [e], e, hq, by rw [hq', List.append_assoc], ?_, hval, ?_⟩
  · rw [List.filter_append, hnone]
    simp [hstart]
  · by_cases hst : s.m_state = .STATE_STOPPED
    · rw [if_pos hst]
      rw [if_neg (by simp [hst])] at hkind
      exact ⟨hkind.1, hkind.2.1⟩
    · rw [if_neg hst]
      rw [if_pos (by simp [hst])] at hkind
      exact hkind.1

theorem DoStart_time_start_event_witness :
    ∃ q evs e, opened_source.event_queue = some q ∧
      (DoStart replies_ok opened_source both_selected (.time 50000000)).state.event_queue
        = some (q ++ evs) ∧
      evs.filter is_source_start = [e] ∧
      e.value = .time (opened_source.header.keyframes.seek
        opened_source.header.first_media_tag_offset 50000000).time ∧
      (if opened_source.m_state = .STATE_STOPPED
        then e.met = .MESourceStarted ∧ e.actual_start
          = some (opened_source.header.keyframes.seek
              opened_source.header.first_media_tag_offset 50000000).time
        else e.met = .MESourceSeeked) :=
  DoStart_time_start_event replies_ok opened_source
    (DoStart replies_ok opened_source both_selected (.time 50000000)).state
    both_selected 50000000 .S_OK (by decide) (by decide)

/-- C7. `DoStart` with an empty start position. From state stopped it leaves
`pending_seek` set and `pending_seek_file_position` at `first_media_tag_offset`
minus 4 (in unsigned 64-bit arithmetic) and starts from time 0. From state
started or paused it starts from `current_keyframe` and leaves `pending_seek`
and `pending_seek_file_position` as they were. When it returns success, the
time it starts from is the one reported: the last event queued is
`MESourceStarted` with that time as value and as actual start time. -/
theorem DoStart_empty_position (r : StreamReplies) (s : FlvSource)
    (pd : PresentationDescriptor) :
    (s.m_state = .STATE_STOPPED →
      (DoStart r s pd .empty).state.status.pending_seek = true ∧
      (DoStart r s pd .empty).state.pending_seek_file_position
        = wrap64 ((s.header.first_media_tag_offset : Int)
            - (flv_previous_tag_size_field_length : Int)) ∧
      (DoStart.position s .empty).2.1.time = 0) ∧
    (s.m_state = .STATE_STARTED ∨ s.m_state = .STATE_PAUSED →
      (DoStart r s pd .empty).state.status.pending_seek = s.status.pending_seek ∧
      (DoStart r s pd .empty).state.pending_seek_file_position
        = s.pending_seek_file_position ∧
      (DoStart.position s .empty).2.1 = s.current_keyframe) ∧
    (∀ s' hr, DoStart r s pd .empty = .ret s' hr → SUCCEEDED hr = true →
      ∃ q evs e, s.event_queue = some q ∧ s'.event_queue = some (q ++ evs ++ [e]) ∧
        e.met = .MESourceStarted ∧
        e.value = .time (DoStart.position s .empty).2.1.time ∧
        e.actual_start = some (DoStart.position s .empty).2.1.time) := by
  have h := DoStart_seek_part r s pd .empty
  refine ⟨fun hst => ?_, fun hst => ?_, fun s' hr hret hs => ?_⟩
  · simp only [seek_part, DoStart.position, enter_op, hst, if_true, Prod.mk.injEq] at h
    exact ⟨h.1, h.2, by simp [DoStart.position, enter_op, hst]⟩
  · have hns : s.m_state ≠ .STATE_STOPPED := by
      rcases hst with h1 | h1 <;> simp [h1]
    simp only [seek_part, DoStart.position, enter_op, hns, if_false, Prod.mk.injEq] at h
    exact ⟨h.1, h.2, by simp [DoStart.position, enter_op, hns]⟩
  · obtain ⟨q, evs, e, hq, hq', _, hval, hkind⟩ := DoStart_ret_success hret hs
    have hp2 : (DoStart.position s .empty).2.2 = false := by
      unfold DoStart.position
      dsimp only
      split <;> rfl
    rw [hp2] at hkind
    simp only [Bool.false_eq_true, if_false] at hkind
    exact ⟨q, evs, e, hq, hq', hkind.1, hval, hkind.2.1⟩

theorem DoStart_empty_position_witness :
    (DoStart replies_ok opened_source both_selected .empty).state.status.pending_seek = true ∧
    (DoStart replies_ok opened_source both_selected .empty).state.pending_seek_file_position
      = 196 ∧
    (DoStart.position paused_source .empty).2.1 = { position := 50200, time := 50000000 } :=
  have h1 := (DoStart_empty_position replies_ok opened_source both_selected).1 (by decide)
  have h2 := (DoStart_empty_position replies_ok paused_source both_selected).2.1
    (Or.inr (by decide))
  ⟨h1.1, h1.2.1.trans (by decide), h2.2.2⟩

/-! ## Stream selection -/

theorem selected_count_le (ds : List StreamDescriptor) : selected_count ds ≤ ds.length :=
  List.length_filter_le _ _

/-- C8. After a `SelectStreams` that returns success, `pending_eos` is the number
of stream descriptors marked selected, whatever its value and whichever streams
were active before. (A success implies that every identifier is 0 or 1; the
number of descriptors is a 32-bit count.) -/
theorem SelectStreams_pending_eos (s s' : FlvSource) (pd : PresentationDescriptor)
    (nanosec : Nat) (isseek : Bool) (hr : HRESULT)
    (hlen : pd.descriptors.length < DWORD_MOD)
    (h : SelectStreams s pd nanosec isseek = .ret s' hr) (hs : SUCCEEDED hr = true) :
    s'.pending_eos = selected_count pd.descriptors := by
  unfold SelectStreams at h
  have h0 : (0 : Nat) < DWORD_MOD := by rw [DWORD_MOD_eq]; norm_num
  have h1 := (SelectStreams_loop_ret pd.descriptors h).2 hs h0
  rw [h1]
  simp only [Nat.zero_add]
  exact Nat.mod_eq_of_lt (lt_of_le_of_lt (selected_count_le _) hlen)

theorem SelectStreams_pending_eos_witness :
    (SelectStreams paused_source
        { descriptors := [{ stream_id := 0, selected := true },
                          { stream_id := 1, selected := false }] } 0 false).state.pending_eos
      = 1 :=
  SelectStreams_pending_eos paused_source _
    { descriptors := [{ stream_id := 0, selected := true },
                      { stream_id := 1, selected := false }] } 0 false .S_OK
    (by rw [DWORD_MOD_eq]; decide) (by decide) (by decide)

/-! ## Stop -/

/-- C10. `DoStop` on a source in state stopped, started or paused, whose event
queue is there, returns; it leaves the state stopped, `restart_counter` one
higher modulo 2^32, and the event queue longer by one `MESourceStopped`
event. -/
theorem DoStop_stops (r : StreamReplies) (s : FlvSource) (q : List MediaEvent)
    (_hst : s.m_state = .STATE_STOPPED ∨ s.m_state = .STATE_STARTED ∨
      s.m_state = .STATE_PAUSED)
    (hq : s.event_queue = some q) :
    ∃ s' hr, DoStop r s = .ret s' hr ∧ s'.m_state = .STATE_STOPPED ∧
      s'.restart_counter = (s.restart_counter + 1) % DWORD_MOD ∧
      s'.event_queue = some (q ++ [{ met := .MESourceStopped, status := hr, value := .empty,
                                     actual_start := none }]) := by
  unfold DoStop DoStop.before_event
  cases ha : s.audio_stream <;> cases hv : s.video_stream <;>
    simp only [enter_op, leave_op, queue_event, Outcome.bind, ha, hv, hq] <;>
    exact ⟨_, _, rfl, rfl, rfl, rfl⟩

theorem DoStop_stops_witness :
    ∃ s' hr, DoStop replies_ok paused_source = .ret s' hr ∧ s'.m_state = .STATE_STOPPED ∧
      s'.restart_counter = (paused_source.restart_counter + 1) % DWORD_MOD ∧
      s'.event_queue = some ([] ++ [{ met := .MESourceStopped, status := hr, value := .empty,
                                      actual_start := none }]) :=
  DoStop_stops replies_ok paused_source [] (Or.inr (Or.inr (by decide))) (by decide)

/-! ## End of stream -/

/-- One `DoEndOfStream` on a source with `pending_eos = p ≥ 1` and its event
queue there: it returns success, `pending_eos` is `p - 1`, and the
end-of-presentation event is queued exactly when `p = 1`. -/
theorem DoEndOfStream_call (s : FlvSource) (q : List MediaEvent) (p : Nat)
    (hp : s.pending_eos = p) (h1 : 1 ≤ p) (hlt : p < DWORD_MOD)
    (hq : s.event_queue = some q) :
    ∃ s', DoEndOfStream s = .ret s' .S_OK ∧ s'.pending_eos = p - 1 ∧
      s'.event_queue = some (if p = 1 then q ++ [end_of_presentation] else q) := by
  have hdec : (s.pending_eos + DWORD_MOD - 1) % DWORD_MOD = p - 1 := by
    rw [hp]
    rw [DWORD_MOD_eq] at hlt ⊢
    omega
  unfold DoEndOfStream
  simp only [enter_op, hdec]
  by_cases hp1 : p = 1
  · have h0 : p - 1 = 0 := by omega
    simp only [h0, if_true, queue_event, hq, Outcome.bind, SUCCEEDED, leave_op, hp1]
    exact ⟨_, rfl, rfl, rfl⟩
  · have h0 : p - 1 ≠ 0 := by omega
    simp only [h0, if_false, leave_op, hp1]
    exact ⟨_, rfl, rfl, hq⟩

/-- The first `k < p` calls of `DoEndOfStream` queue nothing and count
`pending_eos` down from `p` to `p - k`. -/
theorem DoEndOfStream_times_before (k : Nat) :
    ∀ (s : FlvSource) (q : List MediaEvent) (p : Nat), s.pending_eos = p → k < p →
      p < DWORD_MOD → s.event_queue = some q →
      ∃ sk hr, DoEndOfStream.times k s = .ret sk hr ∧ sk.event_queue = some q ∧
        sk.pending_eos = p - k := by
  induction k with
  | zero =>
    intro s q p hp _ _ hq
    exact ⟨s, .S_OK, rfl, hq, by simpa using hp⟩
  | succ k ih =>
    intro s q p hp hk hlt hq
    have h1p : 1 ≤ p := by omega
    obtain ⟨s1, hcall, hp1, hq1⟩ := DoEndOfStream_call s q p hp h1p hlt hq
    have hne : ¬ p = 1 := by omega
    rw [if_neg hne] at hq1
    have hk1 : k < p - 1 := by omega
    have hlt1 : p - 1 < DWORD_MOD := lt_of_le_of_lt (Nat.sub_le _ _) hlt
    obtain ⟨sk, hr, hrun, hqk, hpk⟩ := ih s1 q (p - 1) hp1 hk1 hlt1 hq1
    have hpk' : sk.pending_eos = p - (k + 1) := by rw [hpk]; omega
    refine ⟨sk, hr, ?_, hqk, hpk'⟩
    show (DoEndOfStream s).bind (fun s _ => DoEndOfStream.times k s) = _
    rw [hcall]
    exact hrun

/-- The `p` calls of `DoEndOfStream` that count `pending_eos` down from `p` to 0
return, and queue the end-of-presentation event once. -/
theorem DoEndOfStream_times_all (k : Nat) :
    ∀ (s : FlvSource) (q : List MediaEvent) (p : Nat), s.pending_eos = p → p = k + 1 →
      p < DWORD_MOD → s.event_queue = some q →
      ∃ s' hr, DoEndOfStream.times (k + 1) s = .ret s' hr ∧ s'.pending_eos = 0 ∧
        s'.event_queue = some (q ++ [end_of_presentation]) := by
  induction k with
  | zero =>
    intro s q p hp hk hlt hq
    have h1p : 1 ≤ p := by omega
    obtain ⟨s1, hcall, hp1, hq1⟩ := DoEndOfStream_call s q p hp h1p hlt hq
    have hp1' : p = 1 := by omega
    rw [if_pos hp1'] at hq1
    have hp0 : s1.pending_eos = 0 := by rw [hp1]; omega
    refine ⟨s1, .S_OK, ?_, hp0, hq1⟩
    rw [DoEndOfStream.times, hcall, Outcome.bind_ret, DoEndOfStream.times]
  | succ k ih =>
    intro s q p hp hk hlt hq
    have h1p : 1 ≤ p := by omega
    obtain ⟨s1, hcall, hp1, hq1⟩ := DoEndOfStream_call s q p hp h1p hlt hq
    have hne : ¬ p = 1 := by omega
    rw [if_neg hne] at hq1
    have hk1 : p - 1 = k + 1 := by omega
    have hlt1 : p - 1 < DWORD_MOD := lt_of_le_of_lt (Nat.sub_le _ _) hlt
    obtain ⟨s', hr, hrun, hp', hq'⟩ := ih s1 q (p - 1) hp1 hk1 hlt1 hq1
    refine ⟨s', hr, ?_, hp', hq'⟩
    rw [DoEndOfStream.times, hcall, Outcome.bind_ret]
    exact hrun

/-- C9. From `pending_eos = n ≥ 1` (a 32-bit count) on a source whose event queue
is there, `n` calls of `DoEndOfStream` in a row all return; after the first
`k < n` of them the event queue is as it was and `pending_eos` is `n - k`, and
after the `n`-th `pending_eos` is 0 and the queue is longer by one
end-of-presentation event. -/
theorem DoEndOfStream_countdown (n : Nat) (s : FlvSource) (q : List MediaEvent)
    (hn : 1 ≤ n) (hlt : n < DWORD_MOD) (hp : s.pending_eos = n)
    (hq : s.event_queue = some q) :
    (∀ k, k < n → ∃ sk hr, DoEndOfStream.times k s = .ret sk hr ∧
        sk.event_queue = some q ∧ sk.pending_eos = n - k) ∧
    (∃ s' hr, DoEndOfStream.times n s = .ret s' hr ∧ s'.pending_eos = 0 ∧
        s'.event_queue = some (q ++ [end_of_presentation])) := by
  refine ⟨fun k hk => DoEndOfStream_times_before k s q n hp hk hlt hq, ?_⟩
  obtain ⟨m, rfl⟩ : ∃ m, n = m + 1 := ⟨n - 1, by omega⟩
  exact DoEndOfStream_times_all m s q (m + 1) hp rfl hlt hq

theorem DoEndOfStream_countdown_witness :
    (∀ k, k < 2 → ∃ sk hr, DoEndOfStream.times k paused_source = .ret sk hr ∧
        sk.event_queue = some [] ∧ sk.pending_eos = 2 - k) ∧
    (∃ s' hr, DoEndOfStream.times 2 paused_source = .ret s' hr ∧ s'.pending_eos = 0 ∧
        s'.event_queue = some ([] ++ [end_of_presentation])) :=
  DoEndOfStream_countdown 2 paused_source [] (by decide) (by rw [DWORD_MOD_eq]; decide)
    (by decide) (by decide)

/-! ## Stale completions -/

/-- C11 (code defect). The read of an audio payload is under way when the
source is stopped: `DoStop` increments `restart_counter` from 0 to 1 and queues
the stopped event, and the completion of that read, `OnAudioData`, hands the
payload to the audio stream as a sample all the same. When the source is shut
down instead, `restart_counter` stays 0 and `OnAudioData` still calls
`DeliverPayload` on the audio stream. -/
theorem stale_completion_delivered_and_counter_kept :
    audio_reading_source.reads.getLast? = some (.audio_data audio_read) ∧
    audio_reading_source.restart_counter = 0 ∧
    audio_reading_source.audio_stream.map delivered = some [] ∧
    stopped_reading_source.m_state = .STATE_STOPPED ∧
    stopped_reading_source.restart_counter = 1 ∧
    stopped_reading_source.event_queue.map (fun q => q.getLast?.map fun e => e.met)
      = some (some .MESourceStopped) ∧
    (OnAudioData {} replies_ok stopped_reading_source .S_OK audio_read [1, 2, 3]).value
      = some .S_OK ∧
    ((OnAudioData {} replies_ok stopped_reading_source .S_OK
        audio_read [1, 2, 3]).state.audio_stream.map delivered)
      = some [{ buffers := [[1, 2, 3]], time := some 10000000, clean_point := none }] ∧
    shut_reading_source.m_state = .STATE_SHUTDOWN ∧
    shut_reading_source.restart_counter = 0 ∧
    ((OnAudioData {} replies_ok shut_reading_source .S_OK
        audio_read [1, 2, 3]).state.audio_stream.map delivered)
      = some [{ buffers := [[1, 2, 3]], time := some 10000000, clean_point := none }] := by
  decide

/-- `Shutdown` always returns; it leaves the source in state shutdown and does
not touch `restart_counter`, the status flags or the record of the completions
of the open. -/
theorem Shutdown_frame (s : FlvSource) :
    (Shutdown s).state.m_state = .STATE_SHUTDOWN ∧
    (Shutdown s).state.restart_counter = s.restart_counter ∧
    (Shutdown s).state.status = s.status ∧
    (Shutdown s).state.open_completions = s.open_completions := by
  unfold Shutdown
  dsimp only
  split
  · rename_i h
    have hm : s.m_state = .STATE_SHUTDOWN := by
      unfold fail FAILED CheckShutdown at h
      by_cases hm : s.m_state = .STATE_SHUTDOWN
      · exact hm
      · simp [hm, SUCCEEDED] at h
    exact ⟨hm, rfl, rfl, rfl⟩
  · exact ⟨rfl, rfl, rfl, rfl⟩

/-- What the code does with `restart_counter`: `DoStop` increments it by one
modulo 2^32, also when it does not return; `Shutdown` leaves it as it is; and
after `Shutdown` the demux loop finds nothing to do: `NeedDemux` answers
false. -/
theorem restart_counter_on_stop_and_shutdown (r : StreamReplies) (s : FlvSource) :
    (DoStop r s).state.restart_counter = (s.restart_counter + 1) % DWORD_MOD ∧
    (Shutdown s).state.restart_counter = s.restart_counter ∧
    (NeedDemux r (Shutdown s).state).value = some false := by
  refine ⟨?_, ?_, ?_⟩
  · unfold DoStop DoStop.before_event
    cases ha : s.audio_stream <;> cases hv : s.video_stream <;> cases hq : s.event_queue <;>
      simp only [enter_op, leave_op, queue_event, Outcome.bind, Outcome.state, ha, hv, hq]
  · exact (Shutdown_frame s).2.1
  · have hsd := (Shutdown_frame s).1
    unfold NeedDemux
    simp [CheckShutdown, hsd, fail, FAILED, SUCCEEDED, Outcome.value]

/-! ## Errors of the opening scan -/

/-- `StreamingError` in state opening, with the async result of the open there:
the callback of the open is invoked once more, with the status given; nothing
else changes but the async result, which is released. -/
theorem StreamingError_opening (s : FlvSource) (hr : HRESULT) (result : AsyncResult)
    (hst : s.m_state = .STATE_OPENING) (hres : s.begin_open_caller_result = some result) :
    StreamingError s hr
      = .ret { s with open_completions := s.open_completions ++ [{ result with status := hr }],
                      begin_open_caller_result := none } () := by
  unfold StreamingError CompleteOpen
  simp only [hst, if_true, hres, Outcome.bind]

/-- C12 (code defect). The opening scan, its first video tag header read, gets
a failing status for the read of the video header: `OnVideoHeader` shuts the
source down and the callback of the open is not invoked, now or later (the
async result it would be invoked through is released). -/
theorem open_callback_lost_on_video_header_failure :
    scanning_source.m_state = .STATE_OPENING ∧
    scanning_source.begin_open_caller_result = some { callback := 7, status := .S_OK } ∧
    scanning_source.open_completions = [] ∧
    (OnVideoHeader {} scanning_source .E_FAIL
        { type := .video, timestamp := 0, data_size := 40, data_offset := 24 }
        { frame_type := .key_frame, codec_id := video_codec.avc }).value = some .E_FAIL ∧
    (OnVideoHeader {} scanning_source .E_FAIL
        { type := .video, timestamp := 0, data_size := 40, data_offset := 24 }
        { frame_type := .key_frame, codec_id := video_codec.avc }).state.m_state
      = .STATE_SHUTDOWN ∧
    (OnVideoHeader {} scanning_source .E_FAIL
        { type := .video, timestamp := 0, data_size := 40, data_offset := 24 }
        { frame_type := .key_frame, codec_id := video_codec.avc }).state.open_completions = [] ∧
    (OnVideoHeader {} scanning_source .E_FAIL
        { type := .video, timestamp := 0, data_size := 40, data_offset := 24 }
        { frame_type := .key_frame, codec_id := video_codec.avc }).state.begin_open_caller_result
      = none := by
  decide

/-- C13. In state opening, with the async result of the open there and no
presentation descriptor, `OnFlvTagHeader` for a tag header read that succeeded
with kind `eof` returns, having invoked the callback of the open once with
`MF_E_INVALID_FILE_FORMAT`; there is still no presentation descriptor, and
`EndOpen` with that status returns it and leaves the source shut down without
one. -/
theorem OnFlvTagHeader_eof_fails_open (p : Platform) (s : FlvSource) (hr : HRESULT)
    (tagh : tag_header) (result : AsyncResult)
    (hst : s.m_state = .STATE_OPENING) (hres : s.begin_open_caller_result = some result)
    (hpd : s.presentation_descriptor = none)
    (hok : SUCCEEDED hr = true) (heof : tagh.type = .eof) :
    ∃ s', OnFlvTagHeader p s hr tagh = .ret s' .S_OK ∧
      s'.open_completions
        = s.open_completions ++ [{ result with status := .MF_E_INVALID_FILE_FORMAT }] ∧
      s'.presentation_descriptor = none ∧
      (EndOpen s' .MF_E_INVALID_FILE_FORMAT).value = some .MF_E_INVALID_FILE_FORMAT ∧
      (EndOpen s' .MF_E_INVALID_FILE_FORMAT).state.m_state = .STATE_SHUTDOWN ∧
      (EndOpen s' .MF_E_INVALID_FILE_FORMAT).state.presentation_descriptor = none := by
  have hse := StreamingError_opening
    { s with header := { s.header with status := { s.header.status with scan_once := true } } }
    .MF_E_INVALID_FILE_FORMAT result hst hres
  have hrun : OnFlvTagHeader p s hr tagh
      = .ret { s with
          header := { s.header with status := { s.header.status with scan_once := true } },
          open_completions :=
            s.open_completions ++ [{ result with status := .MF_E_INVALID_FILE_FORMAT }],
          begin_open_caller_result := none } .S_OK := by
    unfold OnFlvTagHeader
    simp only [FAILED, hok, heof, Bool.not_true, Bool.false_eq_true, if_false, if_true,
      reduceCtorEq, false_and]
    rw [hse]
    rfl
  refine ⟨_, hrun, rfl, hpd, ?_, ?_, ?_⟩
  · simp [EndOpen, FAILED, SUCCEEDED, Outcome.value]
  · simp [EndOpen, FAILED, SUCCEEDED, Outcome.state, Shutdown, CheckShutdown, hst, fail]
  · simp [EndOpen, FAILED, SUCCEEDED, Outcome.state, Shutdown, CheckShutdown, hst, fail]

theorem OnFlvTagHeader_eof_fails_open_witness :
    ∃ s', OnFlvTagHeader {} scanning_source .S_OK
        { type := .eof, timestamp := 0, data_size := 0, data_offset := 0 } = .ret s' .S_OK ∧
      s'.open_completions
        = scanning_source.open_completions
          ++ [{ ({ callback := 7, status := .S_OK } : AsyncResult) with
                status := .MF_E_INVALID_FILE_FORMAT }] ∧
      s'.presentation_descriptor = none ∧
      (EndOpen s' .MF_E_INVALID_FILE_FORMAT).value = some .MF_E_INVALID_FILE_FORMAT ∧
      (EndOpen s' .MF_E_INVALID_FILE_FORMAT).state.m_state = .STATE_SHUTDOWN ∧
      (EndOpen s' .MF_E_INVALID_FILE_FORMAT).state.presentation_descriptor = none :=
  OnFlvTagHeader_eof_fails_open {} scanning_source .S_OK
    { type := .eof, timestamp := 0, data_size := 0, data_offset := 0 }
    { callback := 7, status := .S_OK } (by decide) (by decide) (by decide) (by decide) rfl

/-! ## Media types and the presentation descriptor -/

/-- C15. `CreateVideoMediaType` returns `MF_E_UNSUPPORTED_FORMAT` and a null type
exactly when the video codec is not AVC (7); `CreateAudioMediaType` does so
exactly when the audio codec is none of AAC (10), MP3 (2) and MP3 8 kHz (14);
for these three it returns success and a type whose subtype is raw AAC for AAC
and MP3 for the other two, with `stereo + 1` channels. -/
theorem media_type_synthesis (header : flv_file_header) :
    (((CreateVideoMediaType header).1 = .MF_E_UNSUPPORTED_FORMAT ∧
        (CreateVideoMediaType header).2 = none) ↔ header.videocodecid ≠ 7) ∧
    (((CreateAudioMediaType header).1 = .MF_E_UNSUPPORTED_FORMAT ∧
        (CreateAudioMediaType header).2 = none) ↔
      (header.audiocodecid ≠ 10 ∧ header.audiocodecid ≠ 2 ∧ header.audiocodecid ≠ 14)) ∧
    (header.audiocodecid = 10 ∨ header.audiocodecid = 2 ∨ header.audiocodecid = 14 →
      ∃ media_type, CreateAudioMediaType header = (.S_OK, some media_type) ∧
        media_type.subtype
          = some (if header.audiocodecid = 10 then .MEDIASUBTYPE_RAW_AAC1
                  else .MFAudioFormat_MP3) ∧
        media_type.num_channels = some (header.stereo + 1)) := by
  refine ⟨?_, ?_, ?_⟩
  · unfold CreateVideoMediaType video_codec.avc
    by_cases h : header.videocodecid = 7 <;> simp [h]
  · unfold CreateAudioMediaType audio_codec.aac audio_codec.mp3 audio_codec.mp38k
    by_cases h : header.audiocodecid ≠ 10 ∧ header.audiocodecid ≠ 2 ∧ header.audiocodecid ≠ 14
    · simp [h]
    · simp only [h, if_false, iff_false, not_and]
      intro hc
      simp at hc
  · intro hc
    unfold CreateAudioMediaType audio_codec.aac audio_codec.mp3 audio_codec.mp38k
    rcases hc with hc | hc | hc <;> simp [hc, ok, SUCCEEDED]

theorem media_type_synthesis_audio (header : flv_file_header)
    (hc : header.audiocodecid = 10 ∨ header.audiocodecid = 2 ∨ header.audiocodecid = 14) :
    ∃ media_type, CreateAudioMediaType header = (.S_OK, some media_type) ∧
      media_type.subtype
        = some (if header.audiocodecid = 10 then .MEDIASUBTYPE_RAW_AAC1
                else .MFAudioFormat_MP3) ∧
      media_type.num_channels = some (header.stereo + 1) := by
  unfold CreateAudioMediaType audio_codec.aac audio_codec.mp3 audio_codec.mp38k
  rcases hc with hc | hc | hc <;> simp [hc, ok, SUCCEEDED]

theorem media_type_synthesis_witness :
    ∃ media_type, CreateAudioMediaType opened_source.header = (.S_OK, some media_type) ∧
      media_type.subtype
        = some (if opened_source.header.audiocodecid = 10 then .MEDIASUBTYPE_RAW_AAC1
                else .MFAudioFormat_MP3) ∧
      media_type.num_channels = some (opened_source.header.stereo + 1) :=
  (media_type_synthesis opened_source.header).2.2 (Or.inl (by decide))

/-- What `InitPresentationDescriptor` does when the async result of the open is
there and the platform calls succeed. -/
theorem InitPresentationDescriptor_success (fw : PDReplies) (s : FlvSource)
    (result : AsyncResult) (hres : s.begin_open_caller_result = some result)
    (h0 : SUCCEEDED fw.create = true) (h1 : SUCCEEDED fw.set_duration = true)
    (h2 : SUCCEEDED fw.set_audio_bitrate = true) (h3 : SUCCEEDED fw.set_video_bitrate = true)
    (h4 : SUCCEEDED fw.set_file_size = true) :
    InitPresentationDescriptor fw s
      = .ret { s with
          presentation_descriptor := some
            { descriptors :=
                ((s.video_stream.map stream_descriptor).toList
                  ++ (s.audio_stream.map stream_descriptor).toList).map
                  (fun d => { d with selected := true })
              duration := some (s.header.duration * 10000000 % QWORD_MOD)
              audio_encoding_bitrate := some s.header.audiodatarate
              video_encoding_bitrate := some s.header.videodatarate
              total_file_size := some s.header.filesize }
          m_state := .STATE_STOPPED
          open_completions := s.open_completions ++ [{ result with status := .S_OK }]
          begin_open_caller_result := none } .S_OK := by
  unfold InitPresentationDescriptor InitPresentationDescriptor.attributes CompleteOpen
  simp only [FAILED, ok, h0, h1, h2, h3, h4, Bool.not_true, Bool.false_eq_true, if_false,
    if_true, hres]

theorem CreateAudioStream_frame (s : FlvSource) :
    (CreateAudioStream s).1.header = s.header ∧
    (CreateAudioStream s).1.begin_open_caller_result = s.begin_open_caller_result ∧
    (CreateAudioStream s).1.open_completions = s.open_completions ∧
    (CreateAudioStream s).1.video_stream = s.video_stream := by
  unfold CreateAudioStream
  split
  · split <;> exact ⟨rfl, rfl, rfl, rfl⟩
  · exact ⟨rfl, rfl, rfl, rfl⟩

theorem CreateVideoStream_frame (s : FlvSource) :
    (CreateVideoStream s).1.header = s.header ∧
    (CreateVideoStream s).1.begin_open_caller_result = s.begin_open_caller_result ∧
    (CreateVideoStream s).1.open_completions = s.open_completions ∧
    (CreateVideoStream s).1.audio_stream = s.audio_stream := by
  unfold CreateVideoStream
  split
  · split <;> exact ⟨rfl, rfl, rfl, rfl⟩
  · exact ⟨rfl, rfl, rfl, rfl⟩

theorem FinishInitialize_eq (p : Platform) (s : FlvSource) :
    FinishInitialize p s
      = InitPresentationDescriptor p.pd (CreateVideoStream (CreateAudioStream s).1).1 := rfl

/-- C16. When the async result of the open is there and the platform calls
succeed, `FinishInitialize` completes the open with success: the callback is
invoked with `S_OK`, the state is stopped, and the presentation descriptor has
as duration the duration of the metadata times 10000000 modulo 2^64 and every
one of its stream descriptors selected. -/
theorem open_success_descriptor (p : Platform) (s : FlvSource) (result : AsyncResult)
    (hres : s.begin_open_caller_result = some result)
    (h0 : SUCCEEDED p.pd.create = true) (h1 : SUCCEEDED p.pd.set_duration = true)
    (h2 : SUCCEEDED p.pd.set_audio_bitrate = true)
    (h3 : SUCCEEDED p.pd.set_video_bitrate = true)
    (h4 : SUCCEEDED p.pd.set_file_size = true) :
    ∃ s' pd, FinishInitialize p s = .ret s' .S_OK ∧
      s'.open_completions = s.open_completions ++ [{ result with status := .S_OK }] ∧
      s'.m_state = .STATE_STOPPED ∧
      s'.presentation_descriptor = some pd ∧
      pd.duration = some (s.header.duration * 10000000 % QWORD_MOD) ∧
      (∀ d ∈ pd.descriptors, d.selected = true) := by
  obtain ⟨ha1, ha2, ha3, _⟩ := CreateAudioStream_frame s
  obtain ⟨hv1, hv2, hv3, _⟩ := CreateVideoStream_frame (CreateAudioStream s).1
  have hres' : (CreateVideoStream (CreateAudioStream s).1).1.begin_open_caller_result
      = some result := by rw [hv2, ha2, hres]
  have hrun := InitPresentationDescriptor_success p.pd
    (CreateVideoStream (CreateAudioStream s).1).1 result hres' h0 h1 h2 h3 h4
  refine ⟨_, _, hrun, ?_, rfl, rfl, ?_, ?_⟩
  · show (CreateVideoStream (CreateAudioStream s).1).1.open_completions ++ _ = _
    rw [hv3, ha3]
  · show some ((CreateVideoStream (CreateAudioStream s).1).1.header.duration * 10000000
        % QWORD_MOD) = _
    rw [hv1, ha1]
  · intro d hd
    obtain ⟨d0, _, rfl⟩ := List.mem_map.mp hd
    rfl

theorem open_success_descriptor_witness :
    (∃ s' pd, FinishInitialize {} scanned_source = .ret s' .S_OK ∧
      s'.open_completions
        = scanned_source.open_completions
          ++ [{ ({ callback := 7, status := .S_OK } : AsyncResult) with status := .S_OK }] ∧
      s'.m_state = .STATE_STOPPED ∧
      s'.presentation_descriptor = some pd ∧
      pd.duration = some (scanned_source.header.duration * 10000000 % QWORD_MOD) ∧
      (∀ d ∈ pd.descriptors, d.selected = true)) ∧
    scanned_source.header.duration = 10 ∧
    ((FinishInitialize {} scanned_source).state.presentation_descriptor.map
        fun pd => (pd.duration, pd.descriptors.map fun d => (d.stream_id, d.selected)))
      = some (some 100000000, [(0, true), (1, true)]) :=
  ⟨open_success_descriptor {} scanned_source { callback := 7, status := .S_OK }
      (by decide) (by decide) (by decide) (by decide) (by decide) (by decide),
    by decide, by decide⟩

/-- C14 (counterexample). For the scanned source with video codec 4 (On2 VP6) and
AAC audio, `FinishInitialize` completes the open with success: the callback is
invoked with `S_OK` and the state is stopped. -/
theorem vp6_open_completes_with_success :
    vp6_source.header.videocodecid = 4 ∧
    (CreateVideoMediaType vp6_source.header).1 = .MF_E_UNSUPPORTED_FORMAT ∧
    (FinishInitialize {} vp6_source).value = some .S_OK ∧
    (FinishInitialize {} vp6_source).state.open_completions
      = [{ callback := 7, status := .S_OK }] ∧
    (FinishInitialize {} vp6_source).state.m_state = .STATE_STOPPED := by
  decide

/-- C14 (amended). For a header whose video codec is not AVC, `CreateVideoStream`
returns `MF_E_UNSUPPORTED_FORMAT` and creates no stream. `FinishInitialize` does
not look at that status: when the audio codec is AAC, MP3 or MP3 8 kHz, the
async result of the open is there and the platform calls succeed, it completes
the open with success, state stopped, and the presentation descriptor lists the
audio stream only. -/
theorem open_with_unsupported_video_codec (p : Platform) (s : FlvSource)
    (result : AsyncResult) (hv : s.header.videocodecid ≠ 7)
    (ha : s.header.audiocodecid = 10 ∨ s.header.audiocodecid = 2 ∨ s.header.audiocodecid = 14)
    (hvs : s.video_stream = none)
    (hres : s.begin_open_caller_result = some result)
    (h0 : SUCCEEDED p.pd.create = true) (h1 : SUCCEEDED p.pd.set_duration = true)
    (h2 : SUCCEEDED p.pd.set_audio_bitrate = true)
    (h3 : SUCCEEDED p.pd.set_video_bitrate = true)
    (h4 : SUCCEEDED p.pd.set_file_size = true) :
    CreateVideoStream s = (s, .MF_E_UNSUPPORTED_FORMAT) ∧
    ∃ s' pd, FinishInitialize p s = .ret s' .S_OK ∧
      s'.open_completions = s.open_completions ++ [{ result with status := .S_OK }] ∧
      s'.m_state = .STATE_STOPPED ∧
      s'.video_stream = none ∧
      s'.presentation_descriptor = some pd ∧
      pd.descriptors.map (fun d => (d.stream_id, d.selected)) = [(1, true)] := by
  have hcv : ∀ s1 : FlvSource, s1.header = s.header →
      CreateVideoStream s1 = (s1, .MF_E_UNSUPPORTED_FORMAT) := by
    intro s1 h1
    unfold CreateVideoStream CreateVideoMediaType video_codec.avc
    simp [h1, hv]
  obtain ⟨media_type, hca, _, _⟩ := (media_type_synthesis_audio s.header) ha
  have hcas : CreateAudioStream s
      = ({ s with audio_stream := some (CreateStream 1 media_type) }, .S_OK) := by
    unfold CreateAudioStream
    rw [hca]
    simp [ok, SUCCEEDED]
  have hs2 : (CreateVideoStream (CreateAudioStream s).1).1
      = { s with audio_stream := some (CreateStream 1 media_type) } := by
    rw [hcas]
    exact congrArg Prod.fst
      (hcv { s with audio_stream := some (CreateStream 1 media_type) } rfl)
  have hrun := InitPresentationDescriptor_success p.pd
    { s with audio_stream := some (CreateStream 1 media_type) } result hres h0 h1 h2 h3 h4
  refine ⟨hcv s rfl, ?_⟩
  rw [FinishInitialize_eq, hs2, hrun]
  refine ⟨_, _, rfl, rfl, rfl, hvs, rfl, ?_⟩
  simp [hvs, stream_descriptor, CreateStream]

theorem open_with_unsupported_video_codec_witness :
    CreateVideoStream vp6_source = (vp6_source, .MF_E_UNSUPPORTED_FORMAT) ∧
    ∃ s' pd, FinishInitialize {} vp6_source = .ret s' .S_OK ∧
      s'.open_completions
        = vp6_source.open_completions
          ++ [{ ({ callback := 7, status := .S_OK } : AsyncResult) with status := .S_OK }] ∧
      s'.m_state = .STATE_STOPPED ∧
      s'.video_stream = none ∧
      s'.presentation_descriptor = some pd ∧
      pd.descriptors.map (fun d => (d.stream_id, d.selected)) = [(1, true)] :=
  open_with_unsupported_video_codec {} vp6_source { callback := 7, status := .S_OK }
    (by decide) (Or.inl (by decide)) (by decide) (by decide)
    (by decide) (by decide) (by decide) (by decide) (by decide)

/-- C17 (code defect). `Pause` on a source that has not been opened is accepted,
and the `DoPause` it queues leaves the source in state paused with no
presentation descriptor. -/
theorem paused_without_presentation_descriptor :
    fresh_source.m_state = .STATE_INVALID ∧
    (Pause fresh_source).value = some .S_OK ∧
    (Pause fresh_source).state.work_items = [.pause] ∧
    (DoPause (Pause fresh_source).state).value = some .MF_E_INVALID_STATE_TRANSITION ∧
    (DoPause (Pause fresh_source).state).state.m_state = .STATE_PAUSED ∧
    (DoPause (Pause fresh_source).state).state.presentation_descriptor = none := by
  decide

/-! ## The sequence header blob -/

/-- The buffer of `NewNaluBuffer` has `nallength` bytes more than the unit, for
every size of the NAL length field up to 4. -/
theorem NewNaluBuffer_length (nallength : Nat) (nalu : packet) (h : nallength ≤ 4) :
    (NewNaluBuffer nallength nalu).length = nallength + nalu.length := by
  unfold NewNaluBuffer start_code
  rw [List.length_take]
  split
  · simp only [List.length_append, List.length_cons, List.length_nil]
    omega
  · simp only [List.length_append, List.length_cons, List.length_nil]
    omega

/-- C19 (code defect). For a NAL length field of 2 bytes (or 1 byte) the buffer of
`NewNaluBuffer` is shorter than start code and unit together: for the unit
`67 42 00` it is `00 00 01 67 42`, 5 bytes where start code and unit are 6. For
a length field of 4 bytes it is the start code `00 00 00 01` and the unit. -/
theorem NewNaluBuffer_cuts_short_units :
    NewNaluBuffer 2 [103, 66, 0] = [0, 0, 1, 103, 66] ∧
    start_code 2 ++ [103, 66, 0] = [0, 0, 1, 103, 66, 0] ∧
    NewNaluBuffer 1 [103, 66, 0] = [0, 0, 1, 103] ∧
    NewNaluBuffer 4 [103, 66, 0] = [0, 0, 0, 1, 103, 66, 0] := by
  decide

/-! ## Sample times -/

/-- C20 (code defect). The AVC video tag read with timestamp 1000 ms and
composition time 40 ms is delivered with sample time 10000000, the timestamp
alone in 100-ns units, not 10400000. -/
theorem avc_sample_time_ignores_composition_time :
    (OnAvcPacketType {} demuxing_source .S_OK
        (video_packet_header.of video_tag
          { frame_type := .inter_frame, codec_id := video_codec.avc })
        { avc_packet_type := .avc_nalu, composite_time := 40 }).state.reads.getLast?
      = some (.video_data video_read) ∧
    video_read.timestamp = 1000 ∧
    video_read.composition_time = 40 ∧
    ((OnVideoData {} replies_need demuxing_source .S_OK video_read
        nalu_payload).state.video_stream.map fun st => (delivered st).map fun x => x.time)
      = some [some 10000000] ∧
    (video_read.timestamp + video_read.composition_time) * 10000 = 10400000 := by
  decide

/-! ## The clean-point attribute -/

/-- C21 (code defect). A video tag whose frame type is generated key frame is
delivered with the clean-point attribute 0, on the AVC path and on the path of
the other codecs, although `DeliverVideoPacket` has just recorded it as the
current keyframe. A key frame is delivered with 1, an inter frame with 0. -/
theorem clean_point_misses_generated_key_frame :
    generated_key_read.frame_type = .generated_key_frame ∧
    ((OnVideoData {} replies_need demuxing_source .S_OK generated_key_read
        nalu_payload).state.video_stream.map fun st =>
          (delivered st).map fun x => x.clean_point)
      = some [some 0] ∧
    demuxing_source.current_keyframe = { position := 0, time := 0 } ∧
    (OnVideoData {} replies_need demuxing_source .S_OK generated_key_read
        nalu_payload).state.current_keyframe = { position := 2000, time := 10400000 } ∧
    ((OnVideoData {} replies_need demuxing_source .S_OK generated_key_vp6_read
        [1, 2, 3]).state.video_stream.map fun st =>
          (delivered st).map fun x => x.clean_point)
      = some [some 0] ∧
    ((OnVideoData {} replies_need demuxing_source .S_OK
        { video_read with frame_type := .key_frame }
        nalu_payload).state.video_stream.map fun st =>
          (delivered st).map fun x => x.clean_point)
      = some [some 1] ∧
    ((OnVideoData {} replies_need demuxing_source .S_OK video_read
        nalu_payload).state.video_stream.map fun st =>
          (delivered st).map fun x => x.clean_point)
      = some [some 0] := by
  decide

/-! ## Sequence headers in the demux loop -/

/-- C23 (counterexample). On the started source with `processing_op` set,
`ValidateOperation` answers not-accepting, and yet `DoStop` returns success
and leaves the state stopped, `DoPause` returns success and leaves the state
paused, and `DoStart` with a time returns success and replaces the pending
seek position. -/
theorem control_operations_run_while_processing_op_set :
    busy_source.status.processing_op = true ∧
    busy_source.m_state = .STATE_STARTED ∧
    ValidateOperation busy_source = .MF_E_NOTACCEPTING ∧
    (DoStop replies_ok busy_source).value = some .S_OK ∧
    (DoStop replies_ok busy_source).state.m_state = .STATE_STOPPED ∧
    (DoPause busy_source).value = some .S_OK ∧
    (DoPause busy_source).state.m_state = .STATE_PAUSED ∧
    (DoStart replies_ok busy_source both_selected (.time 50000000)).value = some .S_OK ∧
    seek_part busy_source = (true, 196) ∧
    seek_part (DoStart replies_ok busy_source both_selected (.time 50000000)).state
      = (true, 50196) := by
  decide

theorem enter_op_leave_op (s : FlvSource) : enter_op (leave_op s) = enter_op s := rfl

theorem DoStart_position_leave_op (s : FlvSource) (startpos : StartPos) :
    DoStart.position (leave_op s) startpos = DoStart.position s startpos := by
  unfold DoStart.position
  rw [enter_op_leave_op]

theorem DoStart_ret_processing_op {r : StreamReplies} {s s' : FlvSource}
    {pd : PresentationDescriptor} {startpos : StartPos} {hr : HRESULT}
    (h : DoStart r s pd startpos = .ret s' hr) : s'.status.processing_op = false := by
  unfold DoStart at h
  dsimp only at h
  obtain ⟨s1, hr1, _, h1⟩ := Outcome.bind_eq_ret h
  obtain ⟨s2, hr2, _, h2⟩ := Outcome.bind_eq_ret h1
  unfold DoStart.finish at h2
  split at h2
  · obtain ⟨s3, v3, _, h3⟩ := Outcome.bind_eq_ret h2
    simp only [Outcome.ret.injEq] at h3
    rw [← h3.1]
    rfl
  · simp only [Outcome.ret.injEq] at h2
    rw [← h2.1]
    rfl

theorem DoStop_ret_processing_op {r : StreamReplies} {s s' : FlvSource} {hr : HRESULT}
    (h : DoStop r s = .ret s' hr) : s'.status.processing_op = false := by
  unfold DoStop at h
  dsimp only at h
  obtain ⟨s1, v1, _, h1⟩ := Outcome.bind_eq_ret h
  simp only [Outcome.ret.injEq] at h1
  rw [← h1.1]
  rfl

theorem DoPause_ret_processing_op {s s' : FlvSource} {hr : HRESULT}
    (h : DoPause s = .ret s' hr) : s'.status.processing_op = false := by
  unfold DoPause at h
  dsimp only at h
  obtain ⟨s1, v1, _, h1⟩ := Outcome.bind_eq_ret h
  simp only [Outcome.ret.injEq] at h1
  rw [← h1.1]
  rfl

/-- C23 (amended). `ValidateOperation` answers not-accepting exactly when
`processing_op` is set, but no control operation acts on that answer: `DoStart`,
`DoStop` and `DoPause` do on a source with `processing_op` set what they do on
the same source with the flag clear. When one of them returns, with success or
with a failure, `processing_op` is clear; `DoStop` and `DoPause` return whenever
the event queue is there. A `DoStart` that fails because a stream does not start
is an instance. -/
theorem control_operations_leave_processing_op_clear (r : StreamReplies) (s : FlvSource)
    (pd : PresentationDescriptor) (startpos : StartPos) :
    (ValidateOperation s = .MF_E_NOTACCEPTING ↔ s.status.processing_op = true) ∧
    DoStart r s pd startpos = DoStart r (leave_op s) pd startpos ∧
    DoStop r s = DoStop r (leave_op s) ∧
    DoPause s = DoPause (leave_op s) ∧
    (∀ s' hr, DoStart r s pd startpos = .ret s' hr → s'.status.processing_op = false) ∧
    (∀ s' hr, DoStop r s = .ret s' hr → s'.status.processing_op = false) ∧
    (∀ s' hr, DoPause s = .ret s' hr → s'.status.processing_op = false) ∧
    (∀ q, s.event_queue = some q → ∃ s' hr, DoStop r s = .ret s' hr) ∧
    (∀ q, s.event_queue = some q → ∃ s' hr, DoPause s = .ret s' hr) ∧
    (DoStart replies_start_fails opened_source both_selected .empty).value = some .E_FAIL ∧
    (DoStart replies_start_fails opened_source both_selected
        .empty).state.status.processing_op = false := by
  refine ⟨?_, ?_, rfl, rfl, fun s' hr h => DoStart_ret_processing_op h,
    fun s' hr h => DoStop_ret_processing_op h, fun s' hr h => DoPause_ret_processing_op h,
    fun q hq => ?_, fun q hq => ?_, by decide, by decide⟩
  · unfold ValidateOperation
    cases s.status.processing_op <;> simp
  · unfold DoStart
    rw [DoStart_position_leave_op]
  · unfold DoStop DoStop.before_event
    cases ha : s.audio_stream <;> cases hv : s.video_stream <;>
      simp only [enter_op, leave_op, queue_event, Outcome.bind, ha, hv, hq] <;>
      exact ⟨_, _, rfl⟩
  · unfold DoPause
    dsimp only
    have hq2 : ∀ x : FlvSource, x.event_queue = some q →
        ∀ (e : MediaEvent) (hr : HRESULT), ∃ (s' : FlvSource) (hr' : HRESULT),
          (queue_event x e).bind (fun s _ => .ret (leave_op s) hr) = Outcome.ret s' hr' := by
      intro x hx e hr
      unfold queue_event
      rw [hx]
      exact ⟨_, _, rfl⟩
    apply hq2
    split <;> exact hq

/-! ## Skipped tags -/

/-- C24 (code defect). The opening scan has read the metadata and the first
audio tag and waits for the next tag header. When that is a second audio tag,
`OnFlvTagHeader` moves the byte stream forward by the 9 bytes of the payload and
returns without beginning a read: the source stays in state opening with the
callback of the open not invoked, and nothing is under way that would continue
the scan. The same for a tag of unknown kind. For a video tag the read of the
video header is begun. -/
theorem opening_scan_stalls_after_skipped_tag :
    audio_scanned_source.m_state = .STATE_OPENING ∧
    audio_scanned_source.status.first_audio_tag_ready = true ∧
    audio_scanned_source.status.first_video_tag_ready = false ∧
    audio_scanned_source.reads.getLast? = some (.tag_header false) ∧
    (OnFlvTagHeader {} audio_scanned_source .S_OK second_audio_tag).value = some .S_OK ∧
    (OnFlvTagHeader {} audio_scanned_source .S_OK second_audio_tag).state.byte_stream.map
        (fun b => b.position)
      = audio_scanned_source.byte_stream.map (fun b => b.position + 9) ∧
    (OnFlvTagHeader {} audio_scanned_source .S_OK second_audio_tag).state.reads
      = audio_scanned_source.reads ∧
    (OnFlvTagHeader {} audio_scanned_source .S_OK second_audio_tag).state.m_state
      = .STATE_OPENING ∧
    (OnFlvTagHeader {} audio_scanned_source .S_OK second_audio_tag).state.open_completions
      = [] ∧
    (OnFlvTagHeader {} audio_scanned_source .S_OK unknown_tag).state.reads
      = audio_scanned_source.reads ∧
    (OnFlvTagHeader {} audio_scanned_source .S_OK video_tag).state.reads
      = audio_scanned_source.reads ++ [.video_header video_tag] := by
  decide

/-- C25 (code defect). In a demux cycle whose tag header read completes with a
script tag, `OnSampleHeader` skips the payload and returns with
`pending_request` still set and no read begun; `NeedDemux` then answers false
although the streams need data, and `DoRequestData` begins no read. The same for
a tag of unknown kind. After the end of the file `pending_request` stays set as
well, and after a later seek `DoRequestData` begins no read and the pending
seek is never consumed. After a delivered audio sample, in contrast, the next
tag header read is begun. -/
theorem demux_loop_stalls_after_skip_and_eof :
    demuxing_source.status.pending_request = true ∧
    demuxing_source.reads = [.tag_header true] ∧
    (OnSampleHeader {} demuxing_source .S_OK cue_tag).value = some .S_OK ∧
    skipped_source.status.pending_request = true ∧
    skipped_source.reads = [.tag_header true] ∧
    replies_need.needs_data 0 = .S_OK ∧
    (NeedDemux replies_need skipped_source).value = some false ∧
    (DoRequestData {} replies_need skipped_source).value = some .S_OK ∧
    (DoRequestData {} replies_need skipped_source).state.reads = [.tag_header true] ∧
    (OnSampleHeader {} demuxing_source .S_OK unknown_tag).state.status.pending_request = true ∧
    (OnSampleHeader {} demuxing_source .S_OK unknown_tag).state.reads = [.tag_header true] ∧
    (OnSampleHeader {} demuxing_source .S_OK eof_tag).value = some .S_OK ∧
    ended_source.status.pending_request = true ∧
    ended_seeked_source.status.pending_seek = true ∧
    (DoRequestData {} replies_need ended_seeked_source).value = some .S_OK ∧
    (DoRequestData {} replies_need ended_seeked_source).state.reads = [.tag_header true] ∧
    (DoRequestData {} replies_need ended_seeked_source).state.status.pending_seek = true ∧
    (OnAudioData {} replies_need demuxing_source .S_OK audio_read [1, 2, 3]).state.reads
      = [.tag_header true, .tag_header true] := by
  decide

end Flv
